import Mathlib

/-!
Verification of the ai-ops-assistant orchestration engine.

Shallow embedding of the Python sources: dicts become association
lists, JSON values an inductive type, a raised exception the error
side of `Except`, and each component's network peers (tool HTTP
backends, the model gateway) explicit oracle parameters.  Machine
floats only flow through opaque data payloads here, so they are
modelled as integers; no verified property depends on their
arithmetic.
-/

namespace AiOps

/-- JSON values (results of `json.loads`, tool payloads). -/
inductive JsonVal : Type where
  | null : JsonVal
  | bool (b : Bool) : JsonVal
  | num (n : Int) : JsonVal
  | str (s : String) : JsonVal
  | arr (elems : List JsonVal) : JsonVal
  | obj (fields : List (String × JsonVal)) : JsonVal

instance : Inhabited JsonVal := ⟨JsonVal.null⟩

/-- Python `d.get(k)`: first binding of `k` in an association list. -/
def getA {K V : Type} [DecidableEq K] : List (K × V) → K → Option V
  | [], _ => none
  | (k, v) :: rest, key => if k = key then some v else getA rest key

/-- Python `d[k] = v`: overwrite in place if `k` is bound, else append. -/
def setA {K V : Type} [DecidableEq K] : List (K × V) → K → V → List (K × V)
  | [], key, v => [(key, v)]
  | (k, w) :: rest, key, v =>
      if k = key then (k, v) :: rest else (k, w) :: setA rest key v

/-! ## Schemas (`src/agents/schemas.py`)

Each pydantic model becomes a raw structure plus a `validate`
smart constructor mirroring the declared field constraints and
`field_validator`s, run in field-declaration order exactly as
pydantic does.  A value of the raw structure corresponds to an
arbitrary candidate document; only `.ok` results of `validate`
correspond to successfully constructed pydantic objects. -/

/-- The three values of the `ToolName` literal type, which are exactly
the keys of `_TOOL_REGISTRY` in `src/tools/registry.py`. -/
def toolNameLits : List String := ["weather_current", "github_repo_search", "news_search"]

/-- `PlanStep` (raw candidate). -/
structure PlanStep where
  id : Int
  action : String
  tool_name : Option String
  tool_args : List (String × JsonVal) := []
  output_key : String
  depends_on : List Int := []

/-- `tool_name: Optional[ToolName]`: absent, or one of the three literals. -/
def validToolNameOpt : Option String → Bool
  | none => true
  | some s => toolNameLits.contains s

/-- pydantic validation of `PlanStep`: `id >= 1`, `action` non-empty,
`tool_name` a `ToolName` literal when present, `output_key` non-empty,
and the `depends_on_no_self` validator. -/
def PlanStep.validate (s : PlanStep) : Except String PlanStep :=
  if s.id < 1 then .error "id must be >= 1"
  else if s.action.length < 1 then .error "action must be non-empty"
  else if ¬ validToolNameOpt s.tool_name then .error "tool_name must be a ToolName"
  else if s.output_key.length < 1 then .error "output_key must be non-empty"
  else if s.depends_on.contains s.id then .error "depends_on cannot include step id itself"
  else .ok s

/-- `AgentPlan` (raw candidate). -/
structure AgentPlan where
  objective : String
  assumptions : List String := []
  steps : List PlanStep

/-- Last-step condition of the `unique_ids` validator:
`steps[-1].output_key == "final" and steps[-1].tool_name is None`. -/
def lastStepOk (steps : List PlanStep) : Bool :=
  match steps.getLast? with
  | none => false
  | some last => last.output_key = "final" ∧ last.tool_name = none

/-- pydantic validation of `AgentPlan`: `objective` non-empty, every step
itself valid, `steps` non-empty (`min_length=1`), then the `unique_ids`
validator (pairwise distinct ids, terminal compose step). -/
def AgentPlan.validate (p : AgentPlan) : Except String AgentPlan :=
  if p.objective.length < 1 then .error "objective must be non-empty"
  else if ¬ p.steps.all (fun s => (PlanStep.validate s).toBool) then .error "invalid step"
  else if p.steps.length < 1 then .error "steps must be non-empty"
  else if (p.steps.map PlanStep.id).dedup.length ≠ (p.steps.map PlanStep.id).length then
    .error "Step ids must be unique"
  else if ¬ lastStepOk p.steps then
    .error "Last step must be compose_final (tool_name=null, output_key=final)"
  else .ok p

/-- `ToolResult` — the normalized tool contract.  `error = none`
models Python `error is None`. -/
structure ToolResult where
  ok : Bool
  tool_name : String
  data : List (String × JsonVal) := []
  error : Option String := none
  meta : List (String × JsonVal) := []

/-- `ToolResult.model_dump()`, as stored in `state.results`. -/
def ToolResult.model_dump (r : ToolResult) : JsonVal :=
  .obj [("ok", .bool r.ok), ("tool_name", .str r.tool_name), ("data", .obj r.data),
        ("error", match r.error with | none => .null | some e => .str e),
        ("meta", .obj r.meta)]

/-- The §3 Tool Result invariant: `error` populated iff `ok` is false. -/
def ToolResult.errIffFail (r : ToolResult) : Prop := r.error ≠ none ↔ r.ok = false

/-- `ExecutionState`. -/
structure ExecutionState where
  task : String
  plan : AgentPlan
  results : List (String × JsonVal) := []
  step_status : List (Int × String) := []
  logs : List String := []

/-- `VerifierStep` (raw candidate).  `tool_name` is mandatory here
(plain `ToolName`, not `Optional`). -/
structure VerifierStep where
  id : Int
  action : String
  tool_name : String
  tool_args : List (String × JsonVal)
  output_key : String
  depends_on : List Int := []

/-- pydantic validation of `VerifierStep`: `id >= 1000` and `tool_name`
one of the three `ToolName` literals; no other field constraint. -/
def VerifierStep.validate (s : VerifierStep) : Except String VerifierStep :=
  if s.id < 1000 then .error "id must be >= 1000"
  else if ¬ toolNameLits.contains s.tool_name then .error "tool_name must be a ToolName"
  else .ok s

/-- `VerificationResult` (raw candidate). -/
structure VerificationResult where
  status : String
  issues : List String := []
  fix_steps : List VerifierStep := []
  final_output : List (String × JsonVal) := []

/-- pydantic validation of `VerificationResult`:
`status` is the literal `"complete"` or `"needs_fix"`. -/
def VerificationResult.validate (v : VerificationResult) : Except String VerificationResult :=
  if v.status = "complete" ∨ v.status = "needs_fix" then .ok v
  else .error "status must be complete or needs_fix"

def isWs (c : Char) : Bool := c == ' ' || c == '\n' || c == '\t' || c == '\r'

def skipWs (cs : List Char) : List Char := cs.dropWhile isWs

/-- Python `str.strip()`. -/
def trimChars (cs : List Char) : List Char :=
  ((cs.dropWhile isWs).reverse.dropWhile isWs).reverse

/-- Python `str.strip()` on a `String` (kept kernel-computable). -/
def pyStrip (s : String) : String := String.mk (trimChars s.toList)

/-! ## Tool Registry (`src/tools/registry.py`) and Executor (`src/agents/executor.py`)

The executor is parameterized by an oracle environment: `impl name`
is the behavior of the registered tool object's `call` (returning
`.error e` when the call raises an exception with message `e`), and
`llm` is the optional chat client used by `_compose_text` (`.error`
when `chat` raises).  A batch returns the final state together with
`some e` when the loop body raised an uncaught exception `e`; the
in-place mutations made before the raise are kept, as in Python. -/

structure ExecEnv where
  impl : String → List (String × JsonVal) → Except String ToolResult
  llm : Option (ExecutionState → PlanStep → Except String String) := none

/-- `get_tool` from `src/tools/registry.py`: look the name up among the
keys of `_TOOL_REGISTRY` (exactly the three `ToolName` literals),
raising `KeyError(f"Unknown tool: ...")` for any other name. -/
def get_tool (env : ExecEnv) (tool_name : String) :
    Except String (List (String × JsonVal) → Except String ToolResult) :=
  if toolNameLits.contains tool_name then .ok (env.impl tool_name)
  else .error ("Unknown tool: " ++ tool_name)

/-- `ExecutorAgent._deps_ok`: every declared dependency maps to status
`"ok"` in the current state (`state.step_status.get(dep) != "ok"` fails
the gate, so a missing entry also fails it). -/
def deps_ok (step : PlanStep) (state : ExecutionState) : Bool :=
  step.depends_on.all fun dep => getA state.step_status dep = some "ok"

/-- `ExecutorAgent._compose_text`: without an LLM, fall back to the
step's action text; otherwise one chat call whose trimmed reply is the
composed text (an exception from the call propagates). -/
def compose_text (env : ExecEnv) (state : ExecutionState) (step : PlanStep) :
    Except String String :=
  match env.llm with
  | none => .ok step.action
  | some chat => (chat state step).map pyStrip

/-- Trace line for a skipped step. -/
def skipMsg (s : PlanStep) : String :=
  "Step " ++ toString s.id ++ " skipped due to failed dependency: " ++ toString s.depends_on

/-- Trace line for a composed step. -/
def composeMsg (s : PlanStep) : String :=
  "Step " ++ toString s.id ++ " composed text under " ++ s.output_key

/-- Trace line written before a tool call. -/
def callingMsg (s : PlanStep) (name : String) : String :=
  "Step " ++ toString s.id ++ " calling tool " ++ name

/-- Trace line written after a tool call. -/
def outcomeMsg (s : PlanStep) (r : ToolResult) : String :=
  if r.ok then "Step " ++ toString s.id ++ " ok -> stored " ++ s.output_key
  else "Step " ++ toString s.id ++ " failed: " ++ (r.error.getD "None")

/-- One iteration of the `for step in steps` loop body of
`ExecutorAgent._run_steps`. -/
def stepOnce (env : ExecEnv) (state : ExecutionState) (step : PlanStep) :
    ExecutionState × Option String :=
  if ¬ deps_ok step state then
    ({ state with
        step_status := setA state.step_status step.id "skipped",
        logs := state.logs ++ [skipMsg step] }, none)
  else
    match step.tool_name with
    | none =>
        match compose_text env state step with
        | .error e => (state, some e)
        | .ok text =>
            ({ state with
                step_status := setA state.step_status step.id "ok",
                results := setA state.results step.output_key (.obj [("text", .str text)]),
                logs := state.logs ++ [composeMsg step] }, none)
    | some name =>
        match get_tool env name with
        | .error e => (state, some e)
        | .ok tool =>
            let state1 := { state with logs := state.logs ++ [callingMsg step name] }
            let tool_res : ToolResult :=
              match tool step.tool_args with
              | .ok r => r
              | .error e => { ok := false, tool_name := name, error := some e }
            ({ state1 with
                results := setA state1.results step.output_key tool_res.model_dump,
                step_status := setA state1.step_status step.id
                  (if tool_res.ok then "ok" else "failed"),
                logs := state1.logs ++ [outcomeMsg step tool_res] }, none)

/-- `ExecutorAgent._run_steps`: the loop over the batch; an uncaught
exception aborts the remaining steps. -/
def runSteps (env : ExecEnv) : List PlanStep → ExecutionState → ExecutionState × Option String
  | [], state => (state, none)
  | step :: rest, state =>
      match stepOnce env state step with
      | (state1, none) => runSteps env rest state1
      | (state1, some e) => (state1, some e)

/-- `ExecutorAgent.run`. -/
def ExecutorAgent.run (env : ExecEnv) (task : String) (plan : AgentPlan) :
    ExecutionState × Option String :=
  runSteps env plan.steps { task := task, plan := plan }

/-- The `PlanStep(...)` construction performed for each fix step inside
`ExecutorAgent.run_fix_steps`: a pydantic construction, hence validated. -/
def VerifierStep.toPlanStep (fs : VerifierStep) : Except String PlanStep :=
  PlanStep.validate
    { id := fs.id, action := fs.action, tool_name := some fs.tool_name,
      tool_args := fs.tool_args, output_key := fs.output_key, depends_on := fs.depends_on }

/-- The `pseudo_steps` construction loop of `run_fix_steps` (the first
pydantic `ValidationError` raised aborts the conversion). -/
def buildPseudoSteps : List VerifierStep → Except String (List PlanStep)
  | [] => .ok []
  | fs :: rest =>
      match fs.toPlanStep with
      | .error e => .error e
      | .ok s => (buildPseudoSteps rest).map (s :: ·)

/-- `ExecutorAgent.run_fix_steps`. -/
def ExecutorAgent.run_fix_steps (env : ExecEnv) (state : ExecutionState)
    (fix_steps : List VerifierStep) : ExecutionState × Option String :=
  match buildPseudoSteps fix_steps with
  | .error e => (state, some e)
  | .ok pseudo => runSteps env pseudo state

/-! ## Defensive JSON parsing (`src/llm/groq_client.py`, `safe_json_loads`)

`json.loads` is modelled by a standard recursive-descent JSON parser
over the reply's characters; it accepts exactly one JSON document
surrounded by whitespace.  Two simplifications that no settled claim
depends on: numbers are optionally signed integer literals, and the
`\uXXXX` string escape is not interpreted. -/

def unescapeChar (c : Char) : Char :=
  if c = 'n' then '\n' else if c = 't' then '\t' else if c = 'r' then '\r' else c

/-- Body of a JSON string literal, the opening quote already consumed;
returns the decoded characters and the input after the closing quote. -/
def parseStringBody : List Char → Option (List Char × List Char)
  | [] => none
  | '"' :: rest => some ([], rest)
  | '\\' :: e :: rest =>
      match parseStringBody rest with
      | some (acc, rem) => some (unescapeChar e :: acc, rem)
      | none => none
  | c :: rest =>
      match parseStringBody rest with
      | some (acc, rem) => some (c :: acc, rem)
      | none => none

def digitsToNat (ds : List Char) : Nat :=
  ds.foldl (fun n c => n * 10 + (c.toNat - 48)) 0

mutual

def jsonVal : Nat → List Char → Option (JsonVal × List Char)
  | 0, _ => none
  | fuel + 1, cs =>
      match skipWs cs with
      | [] => none
      | c :: rest =>
          if c = '"' then
            match parseStringBody rest with
            | some (body, rem) => some (.str (String.mk body), rem)
            | none => none
          else if c = '{' then
            match skipWs rest with
            | '}' :: rem => some (.obj [], rem)
            | cs1 =>
                match jsonMembers fuel cs1 with
                | some (fields, rem) => some (.obj fields, rem)
                | none => none
          else if c = '[' then
            match skipWs rest with
            | ']' :: rem => some (.arr [], rem)
            | cs1 =>
                match jsonItems fuel cs1 with
                | some (elems, rem) => some (.arr elems, rem)
                | none => none
          else if c = 't' then
            match rest with
            | 'r' :: 'u' :: 'e' :: rem => some (.bool true, rem)
            | _ => none
          else if c = 'f' then
            match rest with
            | 'a' :: 'l' :: 's' :: 'e' :: rem => some (.bool false, rem)
            | _ => none
          else if c = 'n' then
            match rest with
            | 'u' :: 'l' :: 'l' :: rem => some (.null, rem)
            | _ => none
          else if c = '-' then
            match rest.span Char.isDigit with
            | ([], _) => none
            | (ds, rem) => some (.num (-(digitsToNat ds : Int)), rem)
          else if c.isDigit then
            match (c :: rest).span Char.isDigit with
            | (ds, rem) => some (.num (digitsToNat ds), rem)
          else none

def jsonMembers : Nat → List Char → Option (List (String × JsonVal) × List Char)
  | 0, _ => none
  | fuel + 1, cs =>
      match skipWs cs with
      | '"' :: rest =>
          match parseStringBody rest with
          | none => none
          | some (key, rest1) =>
              match skipWs rest1 with
              | ':' :: rest2 =>
                  match jsonVal fuel rest2 with
                  | none => none
                  | some (v, rest3) =>
                      match skipWs rest3 with
                      | ',' :: rest4 =>
                          match jsonMembers fuel rest4 with
                          | none => none
                          | some (fields, rem) => some ((String.mk key, v) :: fields, rem)
                      | '}' :: rem => some ([(String.mk key, v)], rem)
                      | _ => none
              | _ => none
      | _ => none

def jsonItems : Nat → List Char → Option (List JsonVal × List Char)
  | 0, _ => none
  | fuel + 1, cs =>
      match jsonVal fuel cs with
      | none => none
      | some (v, rest) =>
          match skipWs rest with
          | ',' :: rest1 =>
              match jsonItems fuel rest1 with
              | none => none
              | some (elems, rem) => some (v :: elems, rem)
          | ']' :: rem => some ([v], rem)
          | _ => none

end

/-- `json.loads`: one JSON document, optionally surrounded by
whitespace, covering the whole input. -/
def json_loads (cs : List Char) : Option JsonVal :=
  match jsonVal (cs.length + 1) cs with
  | some (v, rem) => if skipWs rem = [] then some v else none
  | none => none

/-- Longest prefix of the input that ends in `close` (the greedy `.*`
of the fallback regex runs to the LAST occurrence of the closing
character); `none` when `close` does not occur. -/
def greedyTo (close : Char) : List Char → Option (List Char)
  | [] => none
  | c :: rest =>
      match greedyTo close rest with
      | some m => some (c :: m)
      | none => if c = close then some [c] else none

/-- `re.search(r"(\x7b.*\x7d|\[.*\])", text, flags=re.DOTALL)`: scan for
the leftmost position holding an opening brace (resp. bracket) that has
a closing brace (resp. bracket) somewhere later, and return the greedy
match running to the last such closer. -/
def regexSearch : List Char → Option (List Char)
  | [] => none
  | c :: rest =>
      if c = '{' then
        match greedyTo '}' rest with
        | some m => some (c :: m)
        | none => regexSearch rest
      else if c = '[' then
        match greedyTo ']' rest with
        | some m => some (c :: m)
        | none => regexSearch rest
      else regexSearch rest

/-- `safe_json_loads` from `src/llm/groq_client.py`: strip the text and
try a full `json.loads`; on failure take the regex fallback match and
`json.loads` it (its failure raises `json.JSONDecodeError`); with no
match raise `ValueError("Could not parse JSON from model output.")`. -/
def safe_json_loads (text : String) : Except String JsonVal :=
  match json_loads (trimChars text.toList) with
  | some v => .ok v
  | none =>
      match regexSearch (trimChars text.toList) with
      | some candidate =>
          match json_loads candidate with
          | some v => .ok v
          | none => .error "Expecting value (JSONDecodeError)"
      | none => .error "Could not parse JSON from model output."

/-- Balanced scan for `firstTopLevelSpan`: consume until the bracket
nesting depth first returns to zero at a closing brace/bracket. -/
def spanScan : Nat → List Char → List Char → Option (List Char)
  | _, _, [] => none
  | depth, acc, c :: rest =>
      if c = '{' ∨ c = '[' then spanScan (depth + 1) (c :: acc) rest
      else if c = '}' ∨ c = ']' then
        if depth ≤ 1 then some (c :: acc).reverse
        else spanScan (depth - 1) (c :: acc) rest
      else spanScan depth (c :: acc) rest

/-- Modelled from the spec's words (§4.1 parsing policy): "the first
top-level brace- or bracket-delimited span" — the span from the first
opening brace/bracket to the closer where nesting first returns to
depth zero. -/
def firstTopLevelSpan : List Char → Option (List Char)
  | [] => none
  | c :: rest =>
      if c = '{' ∨ c = '[' then spanScan 1 [c] rest
      else firstTopLevelSpan rest

/-- Modelled from the spec's words (§4.1 parsing policy), for comparison
with `safe_json_loads`: full parse first, then parse the FIRST
top-level brace- or bracket-delimited span in isolation, else fail. -/
def safe_json_loads_specModel (text : String) : Except String JsonVal :=
  match json_loads (trimChars text.toList) with
  | some v => .ok v
  | none =>
      match firstTopLevelSpan (trimChars text.toList) with
      | some candidate =>
          match json_loads candidate with
          | some v => .ok v
          | none => .error "Expecting value (JSONDecodeError)"
      | none => .error "Could not parse JSON from model output."

/-! ## Schema-Repair Loop (`src/agents/planner.py`, `src/agents/verifier.py`)

Both agents run the same `for _attempt in range(3)` retry protocol
around one model call.  The model gateway is an oracle `replies i`
giving the reply to the i-th chat call; `validate` is
`safe_json_loads` composed with the target schema's pydantic
`model_validate` (its `.error` side is the exception message caught by
the `except` branch).  A trace records the outcome, the number of chat
calls made, and each conversation sent. -/

structure Message where
  role : String
  content : String
deriving DecidableEq

structure RepairTrace (α : Type) where
  result : Except String α
  attempts : Nat
  sent : List (List Message)

/-- The `repair_user` message built in the `except` branch of both
agents: fixed instruction text, the validation error, the offending
reply. -/
def repairUser (err text : String) : String :=
  "Your previous output was invalid JSON or did not match the schema. " ++
  "Fix it and output ONLY valid JSON.\nError: " ++ err ++ "\nPrevious output:\n" ++ text

/-- The retry loop body shared verbatim by `PlannerAgent.plan` and
`VerifierAgent.verify`.  `k` is the index of the next chat call, the
fuel starts at 3 (`range(3)`), `messages` is the conversation to send
next, and the last argument is `last_err`; fuel exhaustion is the final
`raise RuntimeError(failPrefix + last_err)`. -/
def repairLoopAux {α : Type} (system failPrefix : String)
    (validate : String → Except String α) (replies : Nat → String) :
    Nat → Nat → List Message → Option String → RepairTrace α
  | _, 0, _, lastErr =>
      { result := .error (failPrefix ++ lastErr.getD "None"), attempts := 0, sent := [] }
  | k, fuel + 1, messages, _ =>
      match validate (replies k) with
      | .ok v => { result := .ok v, attempts := 1, sent := [messages] }
      | .error e =>
          let msgs1 : List Message :=
            [⟨"system", system⟩, ⟨"user", repairUser e (replies k)⟩]
          let t := repairLoopAux system failPrefix validate replies (k + 1) fuel msgs1 (some e)
          { result := t.result, attempts := t.attempts + 1, sent := messages :: t.sent }

/-- The whole Schema-Repair Loop: the initial conversation is the
system instructions plus the task-specific user prompt, and at most 3
model attempts are made. -/
def schemaRepairLoop {α : Type} (system userPrompt failPrefix : String)
    (validate : String → Except String α) (replies : Nat → String) : RepairTrace α :=
  repairLoopAux system failPrefix validate replies 0 3
    [⟨"system", system⟩, ⟨"user", userPrompt⟩] none

/-- `PlannerAgent.plan`: the Schema-Repair Loop against the `AgentPlan`
schema.  `modelValidate` is pydantic `AgentPlan.model_validate` on the
parsed JSON document (library code, kept as a parameter); parsing is
the concrete `safe_json_loads`. -/
def PlannerAgent.plan (system userPrompt : String)
    (modelValidate : JsonVal → Except String AgentPlan)
    (replies : Nat → String) : RepairTrace AgentPlan :=
  schemaRepairLoop system userPrompt
    "PlannerAgent failed to produce valid plan. Last error: "
    (fun content => (safe_json_loads content).bind modelValidate) replies

/-- `VerifierAgent.verify`: the Schema-Repair Loop against the
`VerificationResult` schema. -/
def VerifierAgent.verify (system userPrompt : String)
    (modelValidate : JsonVal → Except String VerificationResult)
    (replies : Nat → String) : RepairTrace VerificationResult :=
  schemaRepairLoop system userPrompt
    "VerifierAgent failed to produce valid verification JSON. Last error: "
    (fun content => (safe_json_loads content).bind modelValidate) replies

/-! ## Orchestrator (`src/main.py`, `run_task`)

The Planner's outcome and the Verifier's successive outcomes are
oracle parameters (`planResult`, and `verify k results` for the k-th
Verifier call); a `.error` side models the fatal `RuntimeError` raised
when an agent exhausts its schema-repair attempts.  `run_task` is
instrumented with the number of Executor batches it runs. -/

structure OrchEnv where
  exec : ExecEnv
  planResult : Except String AgentPlan
  verify : Nat → List (String × JsonVal) → Except String VerificationResult

/-- The `while verification.status == "needs_fix" and
verification.fix_steps and rounds < max_rounds` loop of `run_task`.
`budget` is the remaining allowance `max_rounds - rounds` (the guard
`rounds < max_rounds` is `budget ≠ 0`), and `k` indexes the next
Verifier call.  The second component counts Executor batches run
inside the loop. -/
def verifyFixLoop (env : OrchEnv) :
    Nat → Nat → ExecutionState → VerificationResult →
    Except String (ExecutionState × VerificationResult) × Nat
  | 0, _, state, verification => (.ok (state, verification), 0)
  | budget + 1, k, state, verification =>
      if verification.status = "needs_fix" ∧ ¬ verification.fix_steps.isEmpty then
        match ExecutorAgent.run_fix_steps env.exec state verification.fix_steps with
        | (_, some e) => (.error e, 1)
        | (state1, none) =>
            match env.verify k state1.results with
            | .error e => (.error e, 1)
            | .ok v1 =>
                let r := verifyFixLoop env budget (k + 1) state1 v1
                (r.1, r.2 + 1)
      else (.ok (state, verification), 0)

/-- `run_task` from `src/main.py`: plan once, run the initial Executor
batch, verify, then the bounded verify/fix loop with `rounds` starting
at 1.  Returns the final state and Verification Result (from which the
`RunResponse` fields are read off), with the total Executor batch
count. -/
def run_task (env : OrchEnv) (task : String) (max_rounds : Int) :
    Except String (ExecutionState × VerificationResult) × Nat :=
  match env.planResult with
  | .error e => (.error e, 0)
  | .ok plan =>
      match ExecutorAgent.run env.exec task plan with
      | (_, some e) => (.error e, 1)
      | (state, none) =>
          match env.verify 0 state.results with
          | .error e => (.error e, 1)
          | .ok verification =>
              let r := verifyFixLoop env (max_rounds - 1).toNat 1 state verification
              (r.1, r.2 + 1)

/-! ## Tool adapters (`src/tools/*.py`)

Each adapter is translated against an oracle environment giving the
outcome of every HTTP request it may issue (`.error e` = the `_get`
helper raised `e` after exhausting its retries).  A response carries an
optional `json` view (`none` = `.json()` raises `ValueError`).  The
adapters' `call` functions return `.error` exactly where an exception
escapes the Python `call` (those are the ones the Executor catches).
Incidental payload formatting (float unit conversion, timestamp
rendering, `repr` of non-scalar values, `[:200]` truncations) is
modelled by total helper functions; no settled claim depends on those
rendered values. -/

structure HttpResp where
  ok : Bool
  status : Int
  text : String
  json : Option JsonVal := none
  contentType : String := ""

/-- Python `str(...)` on a JSON value (container reprs abbreviated). -/
def pyStr : JsonVal → String
  | .str s => s
  | .num n => toString n
  | .bool b => if b then "True" else "False"
  | .null => "None"
  | .arr _ => "[...]"
  | .obj _ => "dict"

/-- Python `int(...)` on a JSON value; `.error` = raised `ValueError` /
`TypeError`. -/
def pyInt : JsonVal → Except String Int
  | .num n => .ok n
  | .bool b => .ok (if b then 1 else 0)
  | .str s =>
      match s.toInt? with
      | some n => .ok n
      | none => .error ("invalid literal for int() with base 10: " ++ s)
  | .null => .error "int() argument must not be None"
  | .arr _ => .error "int() argument must not be a list"
  | .obj _ => .error "int() argument must not be a dict"

def objGet : JsonVal → String → Option JsonVal
  | .obj fs, k => getA fs k
  | _, _ => none

/-- `d.get(k)` on a parsed JSON document (`None` when absent). -/
def objGetD (j : JsonVal) (k : String) : JsonVal := (objGet j k).getD .null

/-- Python truthiness of a JSON value. -/
def jsonTruthy : JsonVal → Bool
  | .null => false
  | .bool b => b
  | .num n => n ≠ 0
  | .str s => ¬ s.isEmpty
  | .arr xs => ¬ xs.isEmpty
  | .obj fs => ¬ fs.isEmpty

/-- Python `a or b`. -/
def jsonOr (a b : JsonVal) : JsonVal := if jsonTruthy a then a else b

/-- Python `s or default` for an optional string whose `None` and `""`
are both falsy. -/
def pyOrStr (o : Option String) (d : String) : String :=
  match o with
  | some s => if s.isEmpty then d else s
  | none => d

def optStrToJson : Option String → JsonVal
  | none => .null
  | some s => .str s

/-- Python `needle in hay`. -/
def containsSub (hay needle : String) : Bool := (hay.splitOn needle).length > 1

/-! ### `GitHubTool` (`src/tools/github_tool.py`) -/

structure GithubEnv where
  searchResp : Except String HttpResp

def githubItem (it : JsonVal) : JsonVal :=
  .obj [("name", objGetD it "name"), ("full_name", objGetD it "full_name"),
        ("stars", objGetD it "stargazers_count"), ("description", objGetD it "description"),
        ("url", objGetD it "html_url"), ("language", objGetD it "language")]

def githubItems (data : JsonVal) (top_n : Int) : List JsonVal :=
  match objGet data "items" with
  | some (.arr xs) => (xs.take top_n.toNat).map githubItem
  | _ => []

/-- `GitHubTool.call`.  The `_get` call is wrapped in `try/except`, so a
request failure becomes a failed Tool Result; `r.json()` on a non-JSON
success body raises out of `call`. -/
def GitHubTool.call (env : GithubEnv) (tool_args : List (String × JsonVal)) :
    Except String ToolResult :=
  match pyInt ((getA tool_args "top_n").getD (.num 5)) with
  | .error e => .error e
  | .ok top_n0 =>
      if (pyStrip (pyStr ((getA tool_args "query").getD (.str "")))).isEmpty then
        .ok { ok := false, tool_name := "github_repo_search", error := some "Missing 'query'" }
      else
        match env.searchResp with
        | .error e =>
            .ok { ok := false, tool_name := "github_repo_search", error := some e }
        | .ok r =>
            if ¬ r.ok then
              .ok { ok := false, tool_name := "github_repo_search",
                    error := some ("GitHub error " ++ toString r.status ++ ": " ++ r.text),
                    meta := [("status_code", .num r.status)] }
            else
              match r.json with
              | none => .error "JSONDecodeError"
              | some data =>
                  .ok { ok := true, tool_name := "github_repo_search",
                        data := [("query", .str (pyStrip (pyStr ((getA tool_args "query").getD (.str ""))))),
                                 ("items", .arr (githubItems data (max 1 (min top_n0 20))))],
                        meta := [("total_count", objGetD data "total_count"),
                                 ("status_code", .num r.status)] }

/-! ### `WeatherTool` (`src/tools/weather_tool.py`) -/

structure WeatherEnv where
  key : String
  owGeoResp : Except String HttpResp
  owCurResp : Except String HttpResp
  omGeoResp : Except String HttpResp
  omCurResp : Except String HttpResp

def weatherName : String := "weather_current"

/-- `_ow_geocode`: `None` on a non-ok response, a non-list or empty
payload; `r.json()` may raise (uncaught). -/
def ow_geocode (env : WeatherEnv) : Except String (Option JsonVal) :=
  match env.owGeoResp with
  | .error e => .error e
  | .ok r =>
      if ¬ r.ok then .ok none
      else
        match r.json with
        | none => .error "JSONDecodeError"
        | some (.arr (x :: _)) => .ok (some x)
        | some _ => .ok none

def capitalizeStr (s : String) : String :=
  match s.toList with
  | [] => ""
  | c :: rest => String.mk (c.toUpper :: rest)

/-- `wind_ms * 3.6` (floats modelled as integers). -/
def owWindKph : JsonVal → JsonVal
  | .num n => .num (n * 36 / 10)
  | _ => .null

/-- `_ow_local_time` (strftime rendering abbreviated). -/
def owLocalTime (dt tz : Int) : String := "t" ++ toString (dt + tz)

/-- The normalized `out` mapping of `_openweather_current`. -/
def owData (geo j : JsonVal) (city : String) : List (String × JsonVal) :=
  let main := jsonOr (objGetD j "main") (.obj [])
  let wind := jsonOr (objGetD j "wind") (.obj [])
  let weather0 := match jsonOr (objGetD j "weather") (.arr []) with
    | .arr (x :: _) => x
    | _ => .obj []
  let desc := pyStrip (match jsonOr (objGetD weather0 "description") (.str "") with
    | .str s => s
    | _ => "")
  let tz : Int := match objGet j "timezone" with
    | some (.num t) => t
    | _ => 0
  [("city", jsonOr (objGetD geo "name") (.str city)),
   ("region", objGetD geo "state"),
   ("country", objGetD geo "country"),
   ("latitude", objGetD geo "lat"),
   ("longitude", objGetD geo "lon"),
   ("temperature_c", objGetD main "temp"),
   ("apparent_temperature_c", objGetD main "feels_like"),
   ("humidity_pct", objGetD main "humidity"),
   ("wind_kph", owWindKph (objGetD wind "speed")),
   ("conditions", if desc.isEmpty then .null else .str (capitalizeStr desc)),
   ("observed_at", match objGet j "dt" with
      | some (.num n) => .str (owLocalTime n tz)
      | _ => .null)]

/-- `_openweather_current`. -/
def openweather_current (env : WeatherEnv) (city : String) : Except String ToolResult :=
  if env.key.isEmpty then
    .ok { ok := false, tool_name := weatherName, error := some "OPENWEATHER_API_KEY not set",
          meta := [("provider", .str "openweather")] }
  else
    match ow_geocode env with
    | .error e => .error e
    | .ok none =>
        .ok { ok := false, tool_name := weatherName,
              error := some ("OpenWeather geocode failed for: " ++ city),
              meta := [("provider", .str "openweather")] }
    | .ok (some geo) =>
        match env.owCurResp with
        | .error e => .error e
        | .ok r =>
            if ¬ r.ok then
              .ok { ok := false, tool_name := weatherName,
                    error := some ("OpenWeather error " ++ toString r.status ++ ": " ++ r.text),
                    meta := [("provider", .str "openweather"), ("status_code", .num r.status)] }
            else
              match r.json with
              | none => .error "JSONDecodeError"
              | some j =>
                  .ok { ok := true, tool_name := weatherName, data := owData geo j city,
                        meta := [("provider", .str "openweather"),
                                 ("status_code", .num r.status)] }

/-- `_om_geocode`. -/
def om_geocode (env : WeatherEnv) : Except String (Option JsonVal) :=
  match env.omGeoResp with
  | .error e => .error e
  | .ok r =>
      if ¬ r.ok then .ok none
      else
        match r.json with
        | none => .error "JSONDecodeError"
        | some j =>
            match jsonOr (objGetD j "results") (.arr []) with
            | .arr (x :: _) => .ok (some x)
            | _ => .ok none

def omCodeMap : List (Int × String) :=
  [(0, "Clear sky"), (1, "Mainly clear"), (2, "Partly cloudy"), (3, "Overcast"),
   (45, "Fog"), (48, "Depositing rime fog"),
   (51, "Light drizzle"), (53, "Moderate drizzle"), (55, "Dense drizzle"),
   (56, "Light freezing drizzle"), (57, "Dense freezing drizzle"),
   (61, "Slight rain"), (63, "Moderate rain"), (65, "Heavy rain"),
   (66, "Light freezing rain"), (67, "Heavy freezing rain"),
   (71, "Slight snow fall"), (73, "Moderate snow fall"), (75, "Heavy snow fall"),
   (77, "Snow grains"),
   (80, "Slight rain showers"), (81, "Moderate rain showers"), (82, "Violent rain showers"),
   (85, "Slight snow showers"), (86, "Heavy snow showers"),
   (95, "Thunderstorm"), (96, "Thunderstorm with slight hail"),
   (99, "Thunderstorm with heavy hail")]

/-- `_OPEN_METEO_CODE_MAP.get(code, f"Weather code ..." if code is not
None else None)`. -/
def omConditions : JsonVal → JsonVal
  | .null => .null
  | .num n =>
      match getA omCodeMap n with
      | some s => .str s
      | none => .str ("Weather code " ++ toString n)
  | v => .str ("Weather code " ++ pyStr v)

/-- The normalized `out` mapping of `_open_meteo_current`. -/
def omData (geo j : JsonVal) (city : String) : List (String × JsonVal) :=
  let cur := jsonOr (objGetD j "current") (.obj [])
  [("city", jsonOr (objGetD geo "name") (.str city)),
   ("region", objGetD geo "admin1"),
   ("country", objGetD geo "country"),
   ("latitude", objGetD geo "latitude"),
   ("longitude", objGetD geo "longitude"),
   ("temperature_c", objGetD cur "temperature_2m"),
   ("apparent_temperature_c", objGetD cur "apparent_temperature"),
   ("humidity_pct", objGetD cur "relative_humidity_2m"),
   ("wind_kph", objGetD cur "wind_speed_10m"),
   ("conditions", omConditions (objGetD cur "weather_code")),
   ("observed_at", objGetD cur "time")]

/-- `_open_meteo_current`. -/
def open_meteo_current (env : WeatherEnv) (city : String) : Except String ToolResult :=
  match om_geocode env with
  | .error e => .error e
  | .ok none =>
      .ok { ok := false, tool_name := weatherName,
            error := some ("Open-Meteo geocode failed for: " ++ city),
            meta := [("provider", .str "open-meteo")] }
  | .ok (some geo) =>
      match env.omCurResp with
      | .error e => .error e
      | .ok r =>
          if ¬ r.ok then
            .ok { ok := false, tool_name := weatherName,
                  error := some ("Open-Meteo error " ++ toString r.status ++ ": " ++ r.text),
                  meta := [("provider", .str "open-meteo"), ("status_code", .num r.status)] }
          else
            match r.json with
            | none => .error "JSONDecodeError"
            | some j =>
                .ok { ok := true, tool_name := weatherName, data := omData geo j city,
                      meta := [("provider", .str "open-meteo"),
                               ("status_code", .num r.status)] }

/-- The Open-Meteo fallback half of `WeatherTool.call` (from the
`om_res = self._open_meteo_current(city)` line on). -/
def weatherFallback (env : WeatherEnv) (city : String) (ow_error : Option String) :
    Except String ToolResult :=
  match open_meteo_current env city with
  | .error e => .error e
  | .ok omRes =>
      if omRes.ok then
        match ow_error with
        | some e =>
            .ok { omRes with
                  meta := setA (setA omRes.meta "fallback_from" (.str "openweather"))
                    "openweather_error" (.str e) }
        | none => .ok omRes
      else
        .ok { ok := false, tool_name := weatherName,
              error := some ("Weather lookup failed. " ++
                (match ow_error with
                 | some e => "OpenWeather: " ++ e ++ " | Open-Meteo: " ++
                     pyOrStr omRes.error "failed"
                 | none => "Open-Meteo: " ++ pyOrStr omRes.error "failed")),
              meta := [("provider", .str "combined")] }

/-- `WeatherTool.call`. -/
def WeatherTool.call (env : WeatherEnv) (tool_args : List (String × JsonVal)) :
    Except String ToolResult :=
  if (pyStrip (pyStr ((getA tool_args "city").getD (.str "")))).isEmpty then
    .ok { ok := false, tool_name := weatherName, error := some "Missing 'city'" }
  else if env.key.isEmpty then
    weatherFallback env (pyStrip (pyStr ((getA tool_args "city").getD (.str "")))) none
  else
    match openweather_current env (pyStrip (pyStr ((getA tool_args "city").getD (.str "")))) with
    | .error e => .error e
    | .ok owRes =>
        if owRes.ok then .ok owRes
        else weatherFallback env (pyStrip (pyStr ((getA tool_args "city").getD (.str ""))))
          (some (pyOrStr owRes.error "OpenWeather failed"))

/-! ### `NewsTool` (`src/tools/news_tool.py`) -/

structure RssItem where
  title : Option String := none
  link : Option String := none
  pubDate : Option String := none
  sourceText : Option String := none

structure NewsEnv where
  newsapi_key : String
  newsapiResp : Except String HttpResp
  gdeltResp : Except String HttpResp
  rssResp : Except String HttpResp
  rssItems : Option (List RssItem)

def newsName : String := "news_search"

/-- The `(data, error)` detail string `_safe_json` reports on a
non-JSON body. -/
def safeJsonErr (r : HttpResp) : String :=
  "status=" ++ toString r.status ++ ", content_type=" ++ r.contentType ++
    ", body_head=" ++ r.text

/-- `(data or \x7b\x7d).get("status") != "ok"`, negated. -/
def newsapiStatusOk (data : JsonVal) : Bool :=
  match objGet data "status" with
  | some (.str s) => s = "ok"
  | _ => false

def newsapiArticle (a : JsonVal) : JsonVal :=
  .obj [("title", objGetD a "title"),
        ("source", objGetD (jsonOr (objGetD a "source") (.obj [])) "name"),
        ("url", objGetD a "url"),
        ("published_at", objGetD a "publishedAt")]

def takeArticles (data : JsonVal) (top_n : Int) (f : JsonVal → JsonVal) : List JsonVal :=
  match jsonOr (objGetD data "articles") (.arr []) with
  | .arr xs => (xs.take top_n.toNat).map f
  | _ => []

/-- `_newsapi_search` (never raises: every failure path is caught and
returned as a failed Tool Result). -/
def newsapi_search (env : NewsEnv) (query : String) (top_n : Int) : ToolResult :=
  match env.newsapiResp with
  | .error e =>
      { ok := false, tool_name := newsName, error := some e,
        meta := [("provider", .str "newsapi")] }
  | .ok r =>
      if ¬ r.ok then
        { ok := false, tool_name := newsName,
          error := some ("NewsAPI error " ++ toString r.status ++ ": " ++ r.text),
          meta := [("provider", .str "newsapi"), ("status_code", .num r.status),
                   ("content_type", .str r.contentType)] }
      else
        match r.json with
        | none =>
            { ok := false, tool_name := newsName,
              error := some ("NewsAPI parse error: " ++ safeJsonErr r),
              meta := [("provider", .str "newsapi"), ("status_code", .num r.status),
                       ("content_type", .str r.contentType)] }
        | some data =>
            if ¬ newsapiStatusOk data then
              { ok := false, tool_name := newsName,
                error := some (("NewsAPI returned error: " ++
                  pyStrip (pyStr (jsonOr (objGetD data "code") (.str ""))) ++ " " ++
                  pyStr (jsonOr (objGetD data "message")
                    (.str "Unknown NewsAPI error")))),
                meta := [("provider", .str "newsapi"), ("status_code", .num r.status),
                         ("newsapi_code", objGetD data "code")] }
            else
              { ok := true, tool_name := newsName,
                data := [("query", .str query),
                         ("articles", .arr (takeArticles data top_n newsapiArticle)),
                         ("provider", .str "newsapi")],
                meta := [("provider", .str "newsapi"), ("status_code", .num r.status)] }

def gdeltArticle (a : JsonVal) : JsonVal :=
  .obj [("title", objGetD a "title"),
        ("source", jsonOr (objGetD a "sourceCountry")
          (jsonOr (objGetD a "source") (objGetD a "domain"))),
        ("url", objGetD a "url"),
        ("published_at", jsonOr (objGetD a "seendate")
          (jsonOr (objGetD a "published") (objGetD a "datetime")))]

/-- `_gdelt_search` (never raises). -/
def gdelt_search (env : NewsEnv) (query : String) (top_n : Int) : ToolResult :=
  match env.gdeltResp with
  | .error e =>
      { ok := false, tool_name := newsName, error := some e,
        meta := [("provider", .str "gdelt")] }
  | .ok r =>
      if ¬ r.ok then
        { ok := false, tool_name := newsName,
          error := some ("GDELT error " ++ toString r.status ++ ": " ++ r.text),
          meta := [("provider", .str "gdelt"), ("status_code", .num r.status),
                   ("content_type", .str r.contentType)] }
      else
        match r.json with
        | none =>
            { ok := false, tool_name := newsName,
              error := some ("GDELT parse error: " ++ safeJsonErr r ++ "." ++
                (if query.length < 3 ∨ containsSub r.text.toLower "too short" then
                  " Hint: try a longer query like 'artificial intelligence' or 'generative ai'."
                 else "")),
              meta := [("provider", .str "gdelt"), ("status_code", .num r.status),
                       ("content_type", .str r.contentType)] }
        | some data =>
            { ok := true, tool_name := newsName,
              data := [("query", .str query),
                       ("articles", .arr (takeArticles data top_n gdeltArticle)),
                       ("provider", .str "gdelt")],
              meta := [("provider", .str "gdelt"), ("status_code", .num r.status)] }

def rssArticle (it : RssItem) : JsonVal :=
  let title := pyStrip (it.title.getD "")
  let link := pyStrip (it.link.getD "")
  let published := pyStrip (it.pubDate.getD "")
  .obj [("title", if title.isEmpty then .null else .str title),
        ("source", match it.sourceText with
          | some s => if s.isEmpty then .null else .str (pyStrip s)
          | none => .null),
        ("url", if link.isEmpty then .null else .str link),
        ("published_at", if published.isEmpty then .null else .str published)]

/-- `_googlenews_rss_search` (never raises; `rssItems = none` models an
`ET.ParseError`, which is caught). -/
def rss_search (env : NewsEnv) (query : String) (top_n : Int) : ToolResult :=
  match env.rssResp with
  | .error e =>
      { ok := false, tool_name := newsName, error := some e,
        meta := [("provider", .str "googlenews_rss")] }
  | .ok r =>
      if ¬ r.ok then
        { ok := false, tool_name := newsName,
          error := some ("Google News RSS error " ++ toString r.status ++ ": " ++ r.text),
          meta := [("provider", .str "googlenews_rss"), ("status_code", .num r.status),
                   ("content_type", .str r.contentType)] }
      else
        match env.rssItems with
        | none =>
            { ok := false, tool_name := newsName,
              error := some "Google News RSS parse error: ParseError",
              meta := [("provider", .str "googlenews_rss"), ("status_code", .num r.status),
                       ("content_type", .str r.contentType)] }
        | some items =>
            { ok := true, tool_name := newsName,
              data := [("query", .str query),
                       ("articles", .arr ((items.take top_n.toNat).map rssArticle)),
                       ("provider", .str "googlenews_rss")],
              meta := [("provider", .str "googlenews_rss"), ("status_code", .num r.status)] }

/-- The provider cascade of `NewsTool.call` when a NewsAPI key is
configured (`res`, `gd`, `rss` are the three providers' results; the
source computes each lazily, which a pure value-level cascade models). -/
def newsWithKeyResult (res gd rss : ToolResult) : ToolResult :=
  if res.ok then res
  else if gd.ok then
    let m := setA (setA gd.meta "fallback_from" (.str "newsapi"))
      "newsapi_error" (optStrToJson res.error)
    { gd with meta := m }
  else if rss.ok then
    let m := setA (setA (setA rss.meta "fallback_from" (.str "gdelt"))
      "newsapi_error" (optStrToJson res.error)) "gdelt_error" (optStrToJson gd.error)
    { rss with meta := m }
  else
    let m := setA (setA rss.meta "newsapi_error" (optStrToJson res.error))
      "gdelt_error" (optStrToJson gd.error)
    { rss with meta := m }

/-- The provider cascade of `NewsTool.call` without a NewsAPI key. -/
def newsNoKeyResult (gd rss : ToolResult) : ToolResult :=
  if gd.ok then gd
  else if rss.ok then
    let m := setA (setA rss.meta "fallback_from" (.str "gdelt"))
      "gdelt_error" (optStrToJson gd.error)
    { rss with meta := m }
  else { rss with meta := setA rss.meta "gdelt_error" (optStrToJson gd.error) }

/-- `NewsTool.call`. -/
def NewsTool.call (env : NewsEnv) (tool_args : List (String × JsonVal)) :
    Except String ToolResult :=
  match pyInt ((getA tool_args "top_n").getD (.num 5)) with
  | .error e => .error e
  | .ok top_n0 =>
      if (pyStrip (pyStr ((getA tool_args "query").getD (.str "")))).isEmpty then
        .ok { ok := false, tool_name := newsName, error := some "Missing 'query'" }
      else
        if ¬ env.newsapi_key.isEmpty then
          .ok (newsWithKeyResult
            (newsapi_search env (pyStrip (pyStr ((getA tool_args "query").getD (.str ""))))
              (max 1 (min top_n0 20)))
            (gdelt_search env (pyStrip (pyStr ((getA tool_args "query").getD (.str ""))))
              (max 1 (min top_n0 20)))
            (rss_search env (pyStrip (pyStr ((getA tool_args "query").getD (.str ""))))
              (max 1 (min top_n0 20))))
        else
          .ok (newsNoKeyResult
            (gdelt_search env (pyStrip (pyStr ((getA tool_args "query").getD (.str ""))))
              (max 1 (min top_n0 20)))
            (rss_search env (pyStrip (pyStr ((getA tool_args "query").getD (.str ""))))
              (max 1 (min top_n0 20))))

/-! ## Helper lemmas -/

theorem getA_setA_self {K V : Type} [DecidableEq K] (l : List (K × V)) (k : K) (v : V) :
    getA (setA l k v) k = some v := by
  induction l with
  | nil => simp [getA, setA]
  | cons p rest ih =>
      obtain ⟨k1, v1⟩ := p
      by_cases h : k1 = k
      · subst h; simp [getA, setA]
      · simp [getA, setA, h, ih]

theorem getA_setA_ne {K V : Type} [DecidableEq K] (l : List (K × V)) (k k' : K) (v : V)
    (h : k' ≠ k) : getA (setA l k v) k' = getA l k' := by
  induction l with
  | nil => simp [getA, setA, Ne.symm h]
  | cons p rest ih =>
      obtain ⟨k1, v1⟩ := p
      by_cases h1 : k1 = k
      · subst h1; simp [getA, setA, Ne.symm h]
      · simp [getA, setA, h1, ih]

theorem getA_setA_isSome {K V : Type} [DecidableEq K] (l : List (K × V)) (k k' : K) (v : V)
    (h : (getA l k').isSome) : (getA (setA l k v) k').isSome := by
  by_cases hk : k' = k
  · subst hk; simp [getA_setA_self]
  · rw [getA_setA_ne l k k' v hk]; exact h

theorem dedup_length_iff {α : Type} [DecidableEq α] (l : List α) :
    l.dedup.length = l.length ↔ l.Nodup := by
  constructor
  · intro h
    have hs : l.dedup.Sublist l := List.dedup_sublist l
    have he : l.dedup = l := hs.eq_of_length h
    rw [← he]
    exact List.nodup_dedup l
  · intro h
    rw [List.dedup_eq_self.mpr h]

theorem planStep_validate_ok_iff {s t : PlanStep} :
    PlanStep.validate s = .ok t ↔
      (t = s ∧ ¬ s.id < 1 ∧ ¬ s.action.length < 1 ∧ validToolNameOpt s.tool_name = true ∧
        ¬ s.output_key.length < 1 ∧ s.depends_on.contains s.id = false) := by
  unfold PlanStep.validate
  split_ifs with h1 h2 h3 h4 h5 <;> simp_all
  exact eq_comm

theorem agentPlan_validate_ok_iff {p q : AgentPlan} :
    AgentPlan.validate p = .ok q ↔
      (q = p ∧ ¬ p.objective.length < 1 ∧
        p.steps.all (fun s => (PlanStep.validate s).toBool) = true ∧ ¬ p.steps.length < 1 ∧
        (p.steps.map PlanStep.id).dedup.length = (p.steps.map PlanStep.id).length ∧
        lastStepOk p.steps = true) := by
  unfold AgentPlan.validate
  split_ifs with h1 h2 h3 h4 h5 <;> simp_all
  exact eq_comm

theorem verifierStep_validate_ok_iff {s t : VerifierStep} :
    VerifierStep.validate s = .ok t ↔
      (t = s ∧ ¬ s.id < 1000 ∧ toolNameLits.contains s.tool_name = true) := by
  unfold VerifierStep.validate
  split_ifs with h1 h2 <;> simp_all
  exact eq_comm

theorem lastStepOk_eq_true {steps : List PlanStep} (h : lastStepOk steps = true) :
    ∃ last, steps.getLast? = some last ∧ last.tool_name = none ∧
      last.output_key = "final" := by
  unfold lastStepOk at h
  cases hl : steps.getLast? with
  | none => rw [hl] at h; simp at h
  | some last =>
      rw [hl] at h
      simp only [decide_eq_true_eq] at h
      exact ⟨last, rfl, h.2, h.1⟩

/-! ## Concrete example values used by witnesses -/

/-- A terminal compose step (no tool name, output key `"final"`). -/
def composeFinalStep : PlanStep :=
  { id := 2, action := "compose final answer", tool_name := none,
    output_key := "final", depends_on := [1] }

def weatherStep : PlanStep :=
  { id := 1, action := "fetch current weather", tool_name := some "weather_current",
    tool_args := [("city", .str "Paris")], output_key := "weather" }

def examplePlan : AgentPlan :=
  { objective := "weather in Paris", steps := [weatherStep, composeFinalStep] }

def exampleFixStep : VerifierStep :=
  { id := 1001, action := "retry weather fetch", tool_name := "weather_current",
    tool_args := [("city", .str "Paris")], output_key := "weather" }

/-! ## Claim theorems: schema invariants -/

/-- C4: every successfully constructed Plan has a non-empty step
sequence whose last step has no tool name and output key `"final"`;
a candidate violating this (or with an empty step list) is rejected by
validation, i.e. at construction time, before any execution. -/
theorem plan_terminal_invariant :
    (∀ p q : AgentPlan, AgentPlan.validate p = .ok q →
        q = p ∧ p.steps ≠ [] ∧
        ∃ last, p.steps.getLast? = some last ∧ last.tool_name = none ∧
          last.output_key = "final")
    ∧ (∀ p : AgentPlan, p.steps = [] → ∀ q, AgentPlan.validate p ≠ .ok q)
    ∧ (∀ (p : AgentPlan) (last : PlanStep), p.steps.getLast? = some last →
        (last.tool_name ≠ none ∨ last.output_key ≠ "final") →
        ∀ q, AgentPlan.validate p ≠ .ok q) := by
  refine ⟨?_, ?_, ?_⟩
  · intro p q h
    obtain ⟨hqp, -, -, hlen, -, hlast⟩ := agentPlan_validate_ok_iff.mp h
    refine ⟨hqp, ?_, lastStepOk_eq_true hlast⟩
    intro hnil
    exact hlen (by simp [hnil])
  · intro p hnil q h
    obtain ⟨-, -, -, hlen, -, -⟩ := agentPlan_validate_ok_iff.mp h
    exact hlen (by simp [hnil])
  · intro p last hlast hbad q h
    obtain ⟨-, -, -, -, -, hok⟩ := agentPlan_validate_ok_iff.mp h
    obtain ⟨l2, hl2, hnone, hfinal⟩ := lastStepOk_eq_true hok
    rw [hlast] at hl2
    injection hl2 with he
    subst he
    cases hbad with
    | inl h1 => exact h1 hnone
    | inr h2 => exact h2 hfinal

theorem plan_terminal_invariant_witness :
    AgentPlan.validate examplePlan = .ok examplePlan ∧ examplePlan.steps ≠ [] ∧
    ∃ last, examplePlan.steps.getLast? = some last ∧ last.tool_name = none ∧
      last.output_key = "final" := by
  have h : AgentPlan.validate examplePlan = .ok examplePlan := by rfl
  have h2 := plan_terminal_invariant.1 examplePlan examplePlan h
  exact ⟨h, h2.2.1, h2.2.2⟩

/-- C5: no validated Step's dependency set contains its own identifier,
and validated Plans have pairwise-distinct step identifiers; candidates
violating either property are rejected by validation. -/
theorem step_id_invariants :
    (∀ s t : PlanStep, PlanStep.validate s = .ok t →
        t = s ∧ s.depends_on.contains s.id = false)
    ∧ (∀ s : PlanStep, s.depends_on.contains s.id = true →
        ∀ t, PlanStep.validate s ≠ .ok t)
    ∧ (∀ p q : AgentPlan, AgentPlan.validate p = .ok q →
        (p.steps.map PlanStep.id).Nodup)
    ∧ (∀ p : AgentPlan, ¬ (p.steps.map PlanStep.id).Nodup →
        ∀ q, AgentPlan.validate p ≠ .ok q) := by
  refine ⟨?_, ?_, ?_, ?_⟩
  · intro s t h
    obtain ⟨hts, -, -, -, -, hdep⟩ := planStep_validate_ok_iff.mp h
    exact ⟨hts, hdep⟩
  · intro s hc t h
    obtain ⟨-, -, -, -, -, hdep⟩ := planStep_validate_ok_iff.mp h
    rw [hc] at hdep
    simp at hdep
  · intro p q h
    obtain ⟨-, -, -, -, hded, -⟩ := agentPlan_validate_ok_iff.mp h
    exact (dedup_length_iff _).mp hded
  · intro p hnd q h
    obtain ⟨-, -, -, -, hded, -⟩ := agentPlan_validate_ok_iff.mp h
    exact hnd ((dedup_length_iff _).mp hded)

theorem step_id_invariants_witness :
    weatherStep.depends_on.contains weatherStep.id = false ∧
    (examplePlan.steps.map PlanStep.id).Nodup :=
  ⟨(step_id_invariants.1 weatherStep weatherStep (by rfl)).2,
   step_id_invariants.2.2.1 examplePlan examplePlan (by rfl)⟩

/-- C10: every schema-valid fix step has identifier ≥ 1000 and a
mandatory tool name among the three registered tools, so its pseudo
plan step always carries `some` tool name (never a free-text compose
step), while an ordinary plan step may have `tool_name = none`. -/
theorem fix_step_schema_invariant :
    (∀ s t : VerifierStep, VerifierStep.validate s = .ok t →
        t = s ∧ 1000 ≤ s.id ∧ toolNameLits.contains s.tool_name = true)
    ∧ (∀ (s : VerifierStep) (ps : PlanStep), VerifierStep.toPlanStep s = .ok ps →
        ps.tool_name = some s.tool_name)
    ∧ (∀ s : VerifierStep, s.id < 1000 → ∀ t, VerifierStep.validate s ≠ .ok t)
    ∧ (∀ s : VerifierStep, toolNameLits.contains s.tool_name = false →
        ∀ t, VerifierStep.validate s ≠ .ok t)
    ∧ PlanStep.validate composeFinalStep = .ok composeFinalStep := by
  refine ⟨?_, ?_, ?_, ?_, by rfl⟩
  · intro s t h
    obtain ⟨hts, hid, htool⟩ := verifierStep_validate_ok_iff.mp h
    exact ⟨hts, by omega, htool⟩
  · intro s ps h
    unfold VerifierStep.toPlanStep at h
    obtain ⟨hps, -, -, -, -, -⟩ := planStep_validate_ok_iff.mp h
    subst hps
    rfl
  · intro s hid t h
    obtain ⟨-, hge, -⟩ := verifierStep_validate_ok_iff.mp h
    exact hge hid
  · intro s htool t h
    obtain ⟨-, -, hc⟩ := verifierStep_validate_ok_iff.mp h
    rw [htool] at hc
    simp at hc

theorem fix_step_schema_invariant_witness :
    1000 ≤ exampleFixStep.id ∧ toolNameLits.contains exampleFixStep.tool_name = true :=
  (fix_step_schema_invariant.1 exampleFixStep exampleFixStep (by rfl)).2

/-! ## Executor behavior -/

/-- The §3 Execution State lifecycle notion: a later state extends an
earlier one additively — same task and plan, every bound results key
and step-status id stays bound (its value may be overwritten), and the
log only grows by appending. -/
def additiveExtends (st st1 : ExecutionState) : Prop :=
  st1.task = st.task ∧ st1.plan = st.plan ∧
  (∀ k, (getA st.results k).isSome → (getA st1.results k).isSome) ∧
  (∀ i, (getA st.step_status i).isSome → (getA st1.step_status i).isSome) ∧
  ∃ tail, st1.logs = st.logs ++ tail

theorem additiveExtends_refl (st : ExecutionState) : additiveExtends st st :=
  ⟨rfl, rfl, fun _ h => h, fun _ h => h, [], by simp⟩

theorem additiveExtends_trans {a b c : ExecutionState}
    (h1 : additiveExtends a b) (h2 : additiveExtends b c) : additiveExtends a c := by
  obtain ⟨t1, p1, r1, s1, l1, hl1⟩ := h1
  obtain ⟨t2, p2, r2, s2, l2, hl2⟩ := h2
  exact ⟨t2.trans t1, p2.trans p1, fun k h => r2 k (r1 k h), fun i h => s2 i (s1 i h),
    l1 ++ l2, by rw [hl2, hl1, List.append_assoc]⟩

/-- Outcome of `try: tool.call(...) except Exception as e: ...` for a
registered tool. -/
def toolOutcome (env : ExecEnv) (name : String) (args : List (String × JsonVal)) : ToolResult :=
  match env.impl name args with
  | .ok r => r
  | .error e => { ok := false, tool_name := name, error := some e }

theorem stepOnce_skip (env : ExecEnv) (state : ExecutionState) (s : PlanStep)
    (h : deps_ok s state = false) :
    stepOnce env state s =
      ({ state with
          step_status := setA state.step_status s.id "skipped",
          logs := state.logs ++ [skipMsg s] }, none) := by
  simp [stepOnce, h]

theorem stepOnce_compose_raise (env : ExecEnv) (state : ExecutionState) (s : PlanStep)
    (e : String) (h : deps_ok s state = true) (hn : s.tool_name = none)
    (hc : compose_text env state s = .error e) :
    stepOnce env state s = (state, some e) := by
  simp [stepOnce, h, hn, hc]

theorem stepOnce_compose_ok (env : ExecEnv) (state : ExecutionState) (s : PlanStep)
    (text : String) (h : deps_ok s state = true) (hn : s.tool_name = none)
    (hc : compose_text env state s = .ok text) :
    stepOnce env state s =
      ({ state with
          step_status := setA state.step_status s.id "ok",
          results := setA state.results s.output_key (.obj [("text", .str text)]),
          logs := state.logs ++ [composeMsg s] }, none) := by
  simp [stepOnce, h, hn, hc]

theorem stepOnce_unknown_tool (env : ExecEnv) (state : ExecutionState) (s : PlanStep)
    (name : String) (h : deps_ok s state = true) (hn : s.tool_name = some name)
    (hreg : toolNameLits.contains name = false) :
    stepOnce env state s = (state, some ("Unknown tool: " ++ name)) := by
  have hmem : ¬ name ∈ toolNameLits := by simpa using hreg
  simp [stepOnce, h, hn, get_tool, hmem]

theorem stepOnce_tool (env : ExecEnv) (state : ExecutionState) (s : PlanStep)
    (name : String) (h : deps_ok s state = true) (hn : s.tool_name = some name)
    (hreg : toolNameLits.contains name = true) :
    stepOnce env state s =
      ({ state with
          results := setA state.results s.output_key
            (toolOutcome env name s.tool_args).model_dump,
          step_status := setA state.step_status s.id
            (if (toolOutcome env name s.tool_args).ok then "ok" else "failed"),
          logs := (state.logs ++ [callingMsg s name]) ++
            [outcomeMsg s (toolOutcome env name s.tool_args)] }, none) := by
  have hmem : name ∈ toolNameLits := by simpa using hreg
  simp [stepOnce, h, hn, get_tool, hmem, toolOutcome]

theorem stepOnce_additive (env : ExecEnv) (state : ExecutionState) (s : PlanStep) :
    additiveExtends state (stepOnce env state s).1 := by
  by_cases hdeps : deps_ok s state = true
  · cases htn : s.tool_name with
    | none =>
        cases hct : compose_text env state s with
        | error e =>
            rw [stepOnce_compose_raise env state s e hdeps htn hct]
            exact additiveExtends_refl state
        | ok text =>
            rw [stepOnce_compose_ok env state s text hdeps htn hct]
            exact ⟨rfl, rfl, fun k hk => getA_setA_isSome _ _ _ _ hk,
              fun i hi => getA_setA_isSome _ _ _ _ hi, [composeMsg s], rfl⟩
    | some name =>
        by_cases hreg : toolNameLits.contains name = true
        · rw [stepOnce_tool env state s name hdeps htn hreg]
          refine ⟨rfl, rfl, fun k hk => getA_setA_isSome _ _ _ _ hk,
            fun i hi => getA_setA_isSome _ _ _ _ hi,
            [callingMsg s name, outcomeMsg s (toolOutcome env name s.tool_args)], ?_⟩
          rw [List.append_assoc]
          rfl
        · rw [stepOnce_unknown_tool env state s name hdeps htn (by simpa using hreg)]
          exact additiveExtends_refl state
  · rw [stepOnce_skip env state s (by simpa using hdeps)]
    exact ⟨rfl, rfl, fun k hk => hk, fun i hi => getA_setA_isSome _ _ _ _ hi,
      [skipMsg s], rfl⟩

theorem runSteps_additive (env : ExecEnv) (steps : List PlanStep) (state : ExecutionState) :
    additiveExtends state (runSteps env steps state).1 := by
  induction steps generalizing state with
  | nil => exact additiveExtends_refl state
  | cons s rest ih =>
      have h1 := stepOnce_additive env state s
      unfold runSteps
      cases hso : stepOnce env state s with
      | mk state1 exc =>
          cases exc with
          | none =>
              simp only []
              refine additiveExtends_trans ?_ (ih state1)
              rw [hso] at h1
              exact h1
          | some e =>
              simp only []
              rw [hso] at h1
              exact h1

/-! ## Claim theorems: Executor behavior -/

/-- A registry environment whose tools always succeed and with no LLM
configured (compose falls back to the step's action text). -/
def trivialExecEnv : ExecEnv :=
  { impl := fun name _ => .ok { ok := true, tool_name := name }, llm := none }

/-- A registry environment whose tool calls always raise. -/
def failingExecEnv : ExecEnv :=
  { impl := fun name _ => .error ("boom " ++ name), llm := none }

def exampleState0 : ExecutionState := { task := "t", plan := examplePlan }

/-- A step naming a tool that is not a registry key. -/
def badToolStep : PlanStep :=
  { id := 7, action := "use unknown tool", tool_name := some "bogus_tool",
    output_key := "out" }

/-- C1 counterexample: executing a step whose tool name is not in the
registry does NOT convert the unknown-tool condition into a failed Tool
Result — the batch aborts with the raised `KeyError`, no status is
recorded for the step, and nothing is stored under its output key. -/
theorem unknown_tool_claim_counterexample :
    (runSteps trivialExecEnv [badToolStep] exampleState0).2 =
      some "Unknown tool: bogus_tool" ∧
    getA (runSteps trivialExecEnv [badToolStep] exampleState0).1.step_status
      badToolStep.id = none ∧
    getA (runSteps trivialExecEnv [badToolStep] exampleState0).1.results
      badToolStep.output_key = none :=
  ⟨rfl, rfl, rfl⟩

/-- C1 (amended): a plan step naming an unregistered tool cannot pass
schema validation (tool names are limited to the three registry keys);
if such a raw step is executed anyway, the unknown-tool `KeyError` from
the registry lookup is raised outside the per-step `try/except`,
aborting the batch with the state unchanged at that step — it is NOT
converted into a failed Tool Result.  Only an exception raised by the
looked-up tool's own call is converted into a failed Tool Result stored
under the step's output key with step status `"failed"`. -/
theorem unknown_tool_aborts_batch :
    (∀ (s : PlanStep) (name : String), s.tool_name = some name →
        toolNameLits.contains name = false → ∀ t, PlanStep.validate s ≠ .ok t)
    ∧ (∀ (env : ExecEnv) (state : ExecutionState) (s : PlanStep) (rest : List PlanStep)
        (name : String), s.tool_name = some name → toolNameLits.contains name = false →
        deps_ok s state = true →
        runSteps env (s :: rest) state = (state, some ("Unknown tool: " ++ name)))
    ∧ (∀ (env : ExecEnv) (state : ExecutionState) (s : PlanStep) (name e : String),
        s.tool_name = some name → toolNameLits.contains name = true →
        deps_ok s state = true → env.impl name s.tool_args = .error e →
        (stepOnce env state s).2 = none ∧
        getA (stepOnce env state s).1.results s.output_key =
          some (ToolResult.model_dump { ok := false, tool_name := name, error := some e }) ∧
        getA (stepOnce env state s).1.step_status s.id = some "failed") := by
  refine ⟨?_, ?_, ?_⟩
  · intro s name hname hreg t h
    obtain ⟨-, -, -, htool, -, -⟩ := planStep_validate_ok_iff.mp h
    rw [hname] at htool
    simp [validToolNameOpt] at htool
    simp at hreg
    exact hreg htool
  · intro env state s rest name hname hreg hdeps
    unfold runSteps
    rw [stepOnce_unknown_tool env state s name hdeps hname hreg]
  · intro env state s name e hname hreg hdeps himpl
    have hout : toolOutcome env name s.tool_args =
        { ok := false, tool_name := name, error := some e } := by
      unfold toolOutcome
      rw [himpl]
    rw [stepOnce_tool env state s name hdeps hname hreg]
    refine ⟨rfl, ?_, ?_⟩
    · rw [hout]
      exact getA_setA_self _ _ _
    · rw [hout]
      simp [getA_setA_self]

theorem unknown_tool_aborts_batch_witness :
    (∀ t, PlanStep.validate badToolStep ≠ .ok t) ∧
    runSteps trivialExecEnv [badToolStep] exampleState0 =
      (exampleState0, some "Unknown tool: bogus_tool") ∧
    getA (stepOnce failingExecEnv exampleState0 weatherStep).1.results
      weatherStep.output_key =
      some (ToolResult.model_dump
        { ok := false, tool_name := "weather_current",
          error := some "boom weather_current" }) ∧
    getA (stepOnce failingExecEnv exampleState0 weatherStep).1.step_status
      weatherStep.id = some "failed" := by
  refine ⟨fun t => unknown_tool_aborts_batch.1 badToolStep "bogus_tool" rfl (by rfl) t,
    unknown_tool_aborts_batch.2.1 trivialExecEnv exampleState0 badToolStep []
      "bogus_tool" rfl (by rfl) (by rfl), ?_, ?_⟩
  · exact (unknown_tool_aborts_batch.2.2 failingExecEnv exampleState0 weatherStep
      "weather_current" "boom weather_current" rfl (by rfl) (by rfl) rfl).2.1
  · exact (unknown_tool_aborts_batch.2.2 failingExecEnv exampleState0 weatherStep
      "weather_current" "boom weather_current" rfl (by rfl) (by rfl) rfl).2.2

/-- C3: a step runs only when every declared dependency maps to status
`"ok"` in the current Execution State; otherwise it is marked
`"skipped"` (never `"ok"`) and nothing is stored under its output key.
In particular, when A depends on B and B came out `"skipped"` or
`"failed"`, A is `"skipped"` in the same batch regardless of A's own
tool behavior (the environment is arbitrary). -/
theorem dependency_gate_skip :
    (∀ (state : ExecutionState) (s : PlanStep), deps_ok s state = true ↔
        ∀ b ∈ s.depends_on, getA state.step_status b = some "ok")
    ∧ (∀ (env : ExecEnv) (state : ExecutionState) (s : PlanStep), deps_ok s state = false →
        (stepOnce env state s).2 = none ∧
        getA (stepOnce env state s).1.step_status s.id = some "skipped" ∧
        (stepOnce env state s).1.results = state.results)
    ∧ (∀ (state : ExecutionState) (s : PlanStep) (b : Int), s.depends_on.contains b = true →
        getA state.step_status b ≠ some "ok" → deps_ok s state = false)
    ∧ (∀ (env : ExecEnv) (state state1 : ExecutionState) (A B : PlanStep),
        A.depends_on.contains B.id = true →
        stepOnce env state B = (state1, none) →
        (getA state1.step_status B.id = some "skipped" ∨
          getA state1.step_status B.id = some "failed") →
        ∃ state2, runSteps env [B, A] state = (state2, none) ∧
          getA state2.step_status A.id = some "skipped" ∧
          getA state2.results A.output_key = getA state1.results A.output_key) := by
  have hiff : ∀ (state : ExecutionState) (s : PlanStep), deps_ok s state = true ↔
      ∀ b ∈ s.depends_on, getA state.step_status b = some "ok" := by
    intro state s
    simp [deps_ok, List.all_eq_true]
  have hgatefalse : ∀ (state : ExecutionState) (s : PlanStep) (b : Int),
      s.depends_on.contains b = true →
      getA state.step_status b ≠ some "ok" → deps_ok s state = false := by
    intro state s b hb hnok
    cases hd : deps_ok s state with
    | false => rfl
    | true =>
        exact absurd ((hiff state s).mp hd b (by simpa using hb)) hnok
  have hskip : ∀ (env : ExecEnv) (state : ExecutionState) (s : PlanStep),
      deps_ok s state = false →
      (stepOnce env state s).2 = none ∧
      getA (stepOnce env state s).1.step_status s.id = some "skipped" ∧
      (stepOnce env state s).1.results = state.results := by
    intro env state s h
    rw [stepOnce_skip env state s h]
    exact ⟨rfl, getA_setA_self _ _ _, rfl⟩
  refine ⟨hiff, hskip, hgatefalse, ?_⟩
  intro env state state1 A B hAB hB hBstat
  have hnok : getA state1.step_status B.id ≠ some "ok" := by
    cases hBstat with
    | inl h => rw [h]; simp
    | inr h => rw [h]; simp
  have hgate : deps_ok A state1 = false := hgatefalse state1 A B.id hAB hnok
  have hstep := hskip env state1 A hgate
  refine ⟨(stepOnce env state1 A).1, ?_, hstep.2.1, hstep.2.2 ▸ rfl⟩
  unfold runSteps
  rw [hB]
  unfold runSteps
  cases hso : stepOnce env state1 A with
  | mk st2 exc =>
      have : exc = none := by
        have := hstep.1
        rw [hso] at this
        exact this
      subst this
      rfl

def depState : ExecutionState :=
  { task := "t", plan := examplePlan, step_status := [(1, "failed")] }

theorem dependency_gate_skip_witness :
    (stepOnce trivialExecEnv depState composeFinalStep).2 = none ∧
    getA (stepOnce trivialExecEnv depState composeFinalStep).1.step_status
      composeFinalStep.id = some "skipped" ∧
    (stepOnce trivialExecEnv depState composeFinalStep).1.results = depState.results :=
  dependency_gate_skip.2.1 trivialExecEnv depState composeFinalStep (by rfl)

/-- C9: every Executor batch (both `run`'s initial batch and each
`run_fix_steps` batch) mutates the Execution State only additively —
keys already bound in the results and step-status mappings stay bound
(values may be overwritten), the log grows only by appending, and the
task and plan are untouched; nothing is deleted or rolled back, even
when the batch aborts on an uncaught exception. -/
theorem executor_rounds_additive :
    (∀ (env : ExecEnv) (steps : List PlanStep) (state : ExecutionState),
        additiveExtends state (runSteps env steps state).1)
    ∧ (∀ (env : ExecEnv) (state : ExecutionState) (fix_steps : List VerifierStep),
        additiveExtends state (ExecutorAgent.run_fix_steps env state fix_steps).1) := by
  refine ⟨fun env steps state => runSteps_additive env steps state, ?_⟩
  intro env state fix_steps
  unfold ExecutorAgent.run_fix_steps
  cases buildPseudoSteps fix_steps with
  | error e => exact additiveExtends_refl state
  | ok pseudo => exact runSteps_additive env pseudo state

def seededState : ExecutionState :=
  { task := "t", plan := examplePlan, results := [("seed", .str "v")],
    step_status := [(0, "ok")], logs := ["l0"] }

theorem executor_rounds_additive_witness :
    (getA (runSteps trivialExecEnv examplePlan.steps seededState).1.results "seed").isSome ∧
    (getA (runSteps trivialExecEnv examplePlan.steps seededState).1.step_status 0).isSome ∧
    ∃ tail, (runSteps trivialExecEnv examplePlan.steps seededState).1.logs =
      seededState.logs ++ tail := by
  have h := executor_rounds_additive.1 trivialExecEnv examplePlan.steps seededState
  exact ⟨h.2.2.1 "seed" (by rfl), h.2.2.2.1 0 (by rfl), h.2.2.2.2⟩

/-! ## Claim theorems: Orchestrator round loop -/

theorem verifyFixLoop_batches_le (env : OrchEnv) :
    ∀ (budget k : Nat) (state : ExecutionState) (v : VerificationResult),
      (verifyFixLoop env budget k state v).2 ≤ budget := by
  intro budget
  induction budget with
  | zero => intro k state v; simp [verifyFixLoop]
  | succ b ih =>
      intro k state v
      by_cases hc : v.status = "needs_fix" ∧ ¬ v.fix_steps.isEmpty
      · cases hfs : ExecutorAgent.run_fix_steps env.exec state v.fix_steps with
        | mk state1 exc =>
            cases exc with
            | some e => simp [verifyFixLoop, hc, hfs]
            | none =>
                cases hv : env.verify k state1.results with
                | error e => simp [verifyFixLoop, hc, hfs, hv]
                | ok v1 =>
                    have hih := ih (k + 1) state1 v1
                    simp [verifyFixLoop, hc, hfs, hv]
                    omega
      · simp only [verifyFixLoop]
        rw [if_neg hc]
        simp

/-- C2: for every `max_rounds` N with 1 ≤ N ≤ 5 the orchestrator runs
at most N Executor batches in total (the initial batch plus at most
N - 1 fix batches) — termination is inherent, `run_task` being a total
function — and for N = 1 the verify/fix loop body never runs: the fix
steps of a `"needs_fix"` verification are not executed and that
round-1 Verification Result is returned as the final result. -/
theorem round_loop_batch_bound :
    (∀ (env : OrchEnv) (task : String) (N : Int), 1 ≤ N → N ≤ 5 →
        ((run_task env task N).2 : Int) ≤ N)
    ∧ (∀ (env : OrchEnv) (task : String) (plan : AgentPlan) (state : ExecutionState)
        (v : VerificationResult),
        env.planResult = .ok plan →
        ExecutorAgent.run env.exec task plan = (state, none) →
        env.verify 0 state.results = .ok v →
        run_task env task 1 = (.ok (state, v), 1)) := by
  constructor
  · intro env task N h1 h5
    cases hp : env.planResult with
    | error e =>
        simp [run_task, hp]
        omega
    | ok plan =>
        cases hr : ExecutorAgent.run env.exec task plan with
        | mk state exc =>
            cases exc with
            | some e => simp [run_task, hp, hr]; omega
            | none =>
                cases hv : env.verify 0 state.results with
                | error e => simp [run_task, hp, hr, hv]; omega
                | ok v =>
                    have hb1 := verifyFixLoop_batches_le env (N - 1).toNat 1 state v
                    have hb2 := verifyFixLoop_batches_le env (N.toNat - 1) 1 state v
                    simp [run_task, hp, hr, hv]
                    omega
  · intro env task plan state v hp hr hv
    simp [run_task, hp, hr, hv, verifyFixLoop]

/-- A `"needs_fix"` verification proposing one fix step. -/
def needsFixVerification : VerificationResult :=
  { status := "needs_fix", issues := ["missing weather"], fix_steps := [exampleFixStep] }

/-- An orchestration environment whose Verifier reports `"needs_fix"`
with fix steps on every round. -/
def loopingOrchEnv : OrchEnv :=
  { exec := trivialExecEnv,
    planResult := .ok examplePlan,
    verify := fun _ _ => .ok needsFixVerification }

theorem round_loop_batch_bound_witness :
    ((run_task loopingOrchEnv "weather in Paris" 3).2 : Int) ≤ 3 ∧
    run_task loopingOrchEnv "weather in Paris" 1 =
      (.ok ((ExecutorAgent.run trivialExecEnv "weather in Paris" examplePlan).1,
        needsFixVerification), 1) :=
  ⟨round_loop_batch_bound.1 loopingOrchEnv "weather in Paris" 3 (by omega) (by omega),
   round_loop_batch_bound.2 loopingOrchEnv "weather in Paris" examplePlan
     (ExecutorAgent.run trivialExecEnv "weather in Paris" examplePlan).1
     needsFixVerification rfl (by rfl) rfl⟩

/-! ## Claim theorems: Schema-Repair Loop -/

/-- Protocol contract of the Schema-Repair Loop: at most 3 model
attempts; one conversation per attempt, the first being the original
system instructions plus the task prompt, every later one exactly the
two messages system-instructions + repair-request (carrying the
previous attempt's validation error and offending reply); immediate
return on the first reply that parses and validates; after three
failures a single failure whose message extends the last validation
error. -/
def repairSpecOf {α : Type} (t : RepairTrace α) (system userPrompt failPrefix : String)
    (validate : String → Except String α) (replies : Nat → String) : Prop :=
  t.attempts ≤ 3 ∧
  t.sent.length = t.attempts ∧
  t.sent.head? = some [⟨"system", system⟩, ⟨"user", userPrompt⟩] ∧
  (∀ i e, i + 1 < t.attempts → validate (replies i) = .error e →
      t.sent[i + 1]? = some [⟨"system", system⟩, ⟨"user", repairUser e (replies i)⟩]) ∧
  (∀ j v, j < 3 → (∀ i, i < j → ∃ e, validate (replies i) = .error e) →
      validate (replies j) = .ok v → t.result = .ok v ∧ t.attempts = j + 1) ∧
  (∀ e0 e1 e2, validate (replies 0) = .error e0 → validate (replies 1) = .error e1 →
      validate (replies 2) = .error e2 →
      t.result = .error (failPrefix ++ e2) ∧ t.attempts = 3)

theorem schemaRepairLoop_protocol {α : Type} (sys up fp : String)
    (validate : String → Except String α) (replies : Nat → String) :
    repairSpecOf (schemaRepairLoop sys up fp validate replies) sys up fp validate replies := by
  cases h0 : validate (replies 0) with
  | ok v0 =>
      have ht : schemaRepairLoop sys up fp validate replies =
          { result := .ok v0, attempts := 1,
            sent := [[⟨"system", sys⟩, ⟨"user", up⟩]] } := by
        simp [schemaRepairLoop, repairLoopAux, h0]
      rw [ht]
      unfold repairSpecOf
      refine ⟨by norm_num, by simp, by simp, ?_, ?_, ?_⟩
      · intro i e hi _
        simp at hi
      · intro j v hj hprior hok
        rcases Nat.eq_zero_or_pos j with hz | hpos
        · subst hz
          rw [h0] at hok
          injection hok with hv
          subst hv
          exact ⟨rfl, rfl⟩
        · obtain ⟨e, he⟩ := hprior 0 hpos
          rw [h0] at he
          cases he
      · intro e0 e1 e2 he0 _ _
        rw [h0] at he0
        cases he0
  | error e0 =>
      cases h1 : validate (replies 1) with
      | ok v1 =>
          have ht : schemaRepairLoop sys up fp validate replies =
              { result := .ok v1, attempts := 2,
                sent := [[⟨"system", sys⟩, ⟨"user", up⟩],
                  [⟨"system", sys⟩, ⟨"user", repairUser e0 (replies 0)⟩]] } := by
            simp [schemaRepairLoop, repairLoopAux, h0, h1]
          rw [ht]
          unfold repairSpecOf
          refine ⟨by norm_num, by simp, by simp, ?_, ?_, ?_⟩
          · intro i e hi he
            have hz : i = 0 := by simp at hi; omega
            subst hz
            rw [h0] at he
            injection he with hee
            subst hee
            simp
          · intro j v hj hprior hok
            interval_cases j
            · rw [h0] at hok; cases hok
            · rw [h1] at hok
              injection hok with hv
              subst hv
              exact ⟨rfl, rfl⟩
            · obtain ⟨e, he⟩ := hprior 1 (by omega)
              rw [h1] at he
              cases he
          · intro f0 f1 f2 _ he1 _
            rw [h1] at he1
            cases he1
      | error e1 =>
          cases h2 : validate (replies 2) with
          | ok v2 =>
              have ht : schemaRepairLoop sys up fp validate replies =
                  { result := .ok v2, attempts := 3,
                    sent := [[⟨"system", sys⟩, ⟨"user", up⟩],
                      [⟨"system", sys⟩, ⟨"user", repairUser e0 (replies 0)⟩],
                      [⟨"system", sys⟩, ⟨"user", repairUser e1 (replies 1)⟩]] } := by
                simp [schemaRepairLoop, repairLoopAux, h0, h1, h2]
              rw [ht]
              unfold repairSpecOf
              refine ⟨by norm_num, by simp, by simp, ?_, ?_, ?_⟩
              · intro i e hi he
                simp at hi
                have h01 : i = 0 ∨ i = 1 := by omega
                rcases h01 with rfl | rfl
                · rw [h0] at he
                  injection he with hee
                  subst hee
                  simp
                · rw [h1] at he
                  injection he with hee
                  subst hee
                  simp
              · intro j v hj hprior hok
                interval_cases j
                · rw [h0] at hok; cases hok
                · rw [h1] at hok; cases hok
                · rw [h2] at hok
                  injection hok with hv
                  subst hv
                  exact ⟨rfl, rfl⟩
              · intro f0 f1 f2 _ _ he2
                rw [h2] at he2
                cases he2
          | error e2 =>
              have ht : schemaRepairLoop sys up fp validate replies =
                  { result := .error (fp ++ e2), attempts := 3,
                    sent := [[⟨"system", sys⟩, ⟨"user", up⟩],
                      [⟨"system", sys⟩, ⟨"user", repairUser e0 (replies 0)⟩],
                      [⟨"system", sys⟩, ⟨"user", repairUser e1 (replies 1)⟩]] } := by
                simp [schemaRepairLoop, repairLoopAux, h0, h1, h2]
              rw [ht]
              unfold repairSpecOf
              refine ⟨by norm_num, by simp, by simp, ?_, ?_, ?_⟩
              · intro i e hi he
                simp at hi
                have h01 : i = 0 ∨ i = 1 := by omega
                rcases h01 with rfl | rfl
                · rw [h0] at he
                  injection he with hee
                  subst hee
                  simp
                · rw [h1] at he
                  injection he with hee
                  subst hee
                  simp
              · intro j v hj hprior hok
                interval_cases j
                · rw [h0] at hok; cases hok
                · rw [h1] at hok; cases hok
                · rw [h2] at hok; cases hok
              · intro f0 f1 f2 _ _ he2
                rw [h2] at he2
                injection he2 with hee
                subst hee
                exact ⟨rfl, rfl⟩

/-- C6: the Schema-Repair Loop, as instantiated by both the Planner
and the Verifier (each validating `safe_json_loads` output against its
schema), satisfies the repair protocol contract `repairSpecOf`: at most
3 model attempts for any reply sequence, each repair attempt a fresh
two-message conversation carrying the validation error and offending
reply, immediate return on the first valid reply, and a single terminal
failure whose message carries the last validation error. -/
theorem schema_repair_loop_spec :
    (∀ (sys up : String) (mv : JsonVal → Except String AgentPlan) (replies : Nat → String),
        repairSpecOf (PlannerAgent.plan sys up mv replies) sys up
          "PlannerAgent failed to produce valid plan. Last error: "
          (fun c => (safe_json_loads c).bind mv) replies)
    ∧ (∀ (sys up : String) (mv : JsonVal → Except String VerificationResult)
        (replies : Nat → String),
        repairSpecOf (VerifierAgent.verify sys up mv replies) sys up
          "VerifierAgent failed to produce valid verification JSON. Last error: "
          (fun c => (safe_json_loads c).bind mv) replies) :=
  ⟨fun sys up mv replies => schemaRepairLoop_protocol sys up
      "PlannerAgent failed to produce valid plan. Last error: "
      (fun c => (safe_json_loads c).bind mv) replies,
   fun sys up mv replies => schemaRepairLoop_protocol sys up
      "VerifierAgent failed to produce valid verification JSON. Last error: "
      (fun c => (safe_json_loads c).bind mv) replies⟩

def exampleVerification : VerificationResult := { status := "complete" }

theorem schema_repair_loop_spec_witness :
    (PlannerAgent.plan "S" "U" (fun _ => .error "schema mismatch") (fun _ => "xx")).attempts = 3 ∧
    (PlannerAgent.plan "S" "U" (fun _ => .error "schema mismatch") (fun _ => "xx")).result =
      .error ("PlannerAgent failed to produce valid plan. Last error: " ++
        "Could not parse JSON from model output.") ∧
    (VerifierAgent.verify "S" "U" (fun _ => .ok exampleVerification)
      (fun _ => "\x7b\x7d")).result = .ok exampleVerification ∧
    (VerifierAgent.verify "S" "U" (fun _ => .ok exampleVerification)
      (fun _ => "\x7b\x7d")).attempts = 1 := by
  obtain ⟨-, -, -, -, -, h6⟩ :=
    schema_repair_loop_spec.1 "S" "U" (fun _ => .error "schema mismatch") (fun _ => "xx")
  obtain ⟨-, -, -, -, h5, -⟩ :=
    schema_repair_loop_spec.2 "S" "U" (fun _ => .ok exampleVerification) (fun _ => "\x7b\x7d")
  have hp := h6 "Could not parse JSON from model output."
    "Could not parse JSON from model output." "Could not parse JSON from model output."
    (by rfl) (by rfl) (by rfl)
  have hv := h5 0 exampleVerification (by omega) (fun i hi => absurd hi (by omega)) (by rfl)
  exact ⟨hp.2, hp.1, hv.1, hv.2⟩

/-! ## Claim theorems: defensive JSON parsing -/

theorem greedyTo_none_iff (close : Char) (cs : List Char) :
    greedyTo close cs = none ↔ close ∉ cs := by
  induction cs with
  | nil => simp [greedyTo]
  | cons c rest ih =>
      unfold greedyTo
      cases hg : greedyTo close rest with
      | some m =>
          have hmem : close ∈ rest := by
            by_contra hq
            rw [ih.mpr hq] at hg
            cases hg
          simp [List.mem_cons, hmem]
      | none =>
          have hnm : close ∉ rest := ih.mp hg
          by_cases hce : c = close
          · subst hce
            simp
          · have hcc : ¬ close = c := fun hq => hce hq.symm
            simp [hce, List.mem_cons, hnm, hcc]

theorem greedyTo_some (close : Char) (cs m : List Char) (h : greedyTo close cs = some m) :
    ∃ m' post, m = m' ++ [close] ∧ cs = m ++ post ∧ close ∉ post := by
  induction cs generalizing m with
  | nil => simp [greedyTo] at h
  | cons c rest ih =>
      unfold greedyTo at h
      cases hg : greedyTo close rest with
      | some m1 =>
          rw [hg] at h
          injection h with hm
          subst hm
          obtain ⟨m1', post, hm1, hrest, hpost⟩ := ih m1 hg
          refine ⟨c :: m1', post, ?_, ?_, hpost⟩
          · rw [hm1]
            rfl
          · rw [hrest]
            rfl
      | none =>
          rw [hg] at h
          by_cases hce : c = close
          · rw [if_pos hce] at h
            injection h with hm
            subst hce
            subst hm
            exact ⟨[], rest, rfl, rfl, (greedyTo_none_iff _ _).mp hg⟩
          · rw [if_neg hce] at h
            cases h

theorem regexSearch_some (cs m : List Char) (h : regexSearch cs = some m) :
    ∃ pre inner post op cl, cs = pre ++ m ++ post ∧ m = op :: (inner ++ [cl]) ∧
      ((op = '{' ∧ cl = '}') ∨ (op = '[' ∧ cl = ']')) ∧ cl ∉ post ∧
      (∀ p1 d p2, pre = p1 ++ d :: p2 →
        (d = '{' → '}' ∉ (p2 ++ m ++ post)) ∧ (d = '[' → ']' ∉ (p2 ++ m ++ post))) := by
  induction cs generalizing m with
  | nil => simp [regexSearch] at h
  | cons c rest ih =>
      unfold regexSearch at h
      by_cases hc1 : c = '{'
      · rw [if_pos hc1] at h
        cases hg : greedyTo '}' rest with
        | some m1 =>
            rw [hg] at h
            injection h with hm
            obtain ⟨m1', post, hm1, hrest, hpost⟩ := greedyTo_some '}' rest m1 hg
            refine ⟨[], m1', post, c, '}', ?_, ?_, Or.inl ⟨hc1, rfl⟩, hpost, ?_⟩
            · rw [← hm, hrest]
              rfl
            · rw [← hm, hm1]
            · intro p1 d p2 hp
              cases p1 <;> simp at hp
        | none =>
            rw [hg] at h
            obtain ⟨pre, inner, post, op, cl, hcs, hm, hopcl, hpost, hleft⟩ := ih m h
            refine ⟨c :: pre, inner, post, op, cl, by rw [hcs]; rfl, hm, hopcl, hpost, ?_⟩
            intro p1 d p2 hp
            cases p1 with
            | nil =>
                simp only [List.nil_append, List.cons.injEq] at hp
                obtain ⟨hdc, hp2⟩ := hp
                subst hdc
                subst hp2
                constructor
                · intro _
                  have hnb : '}' ∉ rest := (greedyTo_none_iff _ _).mp hg
                  intro hin
                  exact hnb (by rw [hcs]; simpa using hin)
                · intro hd
                  rw [hc1] at hd
                  exact absurd hd (by decide)
            | cons q p1t =>
                simp only [List.cons_append, List.cons.injEq] at hp
                exact hleft p1t d p2 hp.2
      · by_cases hc2 : c = '['
        · rw [if_neg hc1, if_pos hc2] at h
          cases hg : greedyTo ']' rest with
          | some m1 =>
              rw [hg] at h
              injection h with hm
              obtain ⟨m1', post, hm1, hrest, hpost⟩ := greedyTo_some ']' rest m1 hg
              refine ⟨[], m1', post, c, ']', ?_, ?_, Or.inr ⟨hc2, rfl⟩, hpost, ?_⟩
              · rw [← hm, hrest]
                rfl
              · rw [← hm, hm1]
              · intro p1 d p2 hp
                cases p1 <;> simp at hp
          | none =>
              rw [hg] at h
              obtain ⟨pre, inner, post, op, cl, hcs, hm, hopcl, hpost, hleft⟩ := ih m h
              refine ⟨c :: pre, inner, post, op, cl, by rw [hcs]; rfl, hm, hopcl, hpost, ?_⟩
              intro p1 d p2 hp
              cases p1 with
              | nil =>
                  simp only [List.nil_append, List.cons.injEq] at hp
                  obtain ⟨hdc, hp2⟩ := hp
                  subst hdc
                  subst hp2
                  constructor
                  · intro hd
                    rw [hc2] at hd
                    exact absurd hd (by decide)
                  · intro _
                    have hnb : ']' ∉ rest := (greedyTo_none_iff _ _).mp hg
                    intro hin
                    exact hnb (by rw [hcs]; simpa using hin)
              | cons q p1t =>
                  simp only [List.cons_append, List.cons.injEq] at hp
                  exact hleft p1t d p2 hp.2
        · rw [if_neg hc1, if_neg hc2] at h
          obtain ⟨pre, inner, post, op, cl, hcs, hm, hopcl, hpost, hleft⟩ := ih m h
          refine ⟨c :: pre, inner, post, op, cl, by rw [hcs]; rfl, hm, hopcl, hpost, ?_⟩
          intro p1 d p2 hp
          cases p1 with
          | nil =>
              simp only [List.nil_append, List.cons.injEq] at hp
              obtain ⟨hdc, hp2⟩ := hp
              subst hdc
              subst hp2
              exact ⟨fun hd => absurd hd hc1, fun hd => absurd hd hc2⟩
          | cons q p1t =>
              simp only [List.cons_append, List.cons.injEq] at hp
              exact hleft p1t d p2 hp.2

/-- The model reply used to separate `safe_json_loads` from the spec's
words: two top-level JSON objects surrounded by prose. -/
def cxReply : String := "x \x7b\"a\": 1\x7d y \x7b\"b\": 2\x7d"

/-- C7 counterexample: on a reply holding two top-level JSON objects,
parsing "the first top-level brace-delimited span in isolation" (the
spec model) succeeds with the first object, but `safe_json_loads`
raises: its greedy regex extracts from the first `\x7b` to the LAST
`\x7d`, which is not valid JSON. -/
theorem json_extraction_claim_counterexample :
    safe_json_loads cxReply = .error "Expecting value (JSONDecodeError)" ∧
    safe_json_loads_specModel cxReply = .ok (.obj [("a", .num 1)]) ∧
    safe_json_loads cxReply ≠ safe_json_loads_specModel cxReply := by
  have h1 : safe_json_loads cxReply = .error "Expecting value (JSONDecodeError)" := rfl
  have h2 : safe_json_loads_specModel cxReply = .ok (.obj [("a", .num 1)]) := rfl
  refine ⟨h1, h2, fun h => ?_⟩
  rw [h1, h2] at h
  exact Except.noConfusion h

/-- C7 (amended): the parser first attempts to parse the entire trimmed
reply; if that fails it extracts the span running from the FIRST
eligible opening brace (resp. bracket) — one with a same-kind closer
somewhere later — to the LAST same-kind closing character of the reply
(the regex `.*` is greedy; this is not, in general, the first top-level
span), and parses that span in isolation; if both parses fail it
reports a single parse failure exception rather than looping or
returning a partial value. -/
theorem json_extraction_greedy :
    (∀ (text : String) (v : JsonVal),
        json_loads (trimChars text.toList) = some v → safe_json_loads text = .ok v)
    ∧ (∀ text : String, json_loads (trimChars text.toList) = none →
        regexSearch (trimChars text.toList) = none →
        safe_json_loads text = .error "Could not parse JSON from model output.")
    ∧ (∀ (text : String) (m : List Char), json_loads (trimChars text.toList) = none →
        regexSearch (trimChars text.toList) = some m →
        (safe_json_loads text = match json_loads m with
          | some v => .ok v
          | none => .error "Expecting value (JSONDecodeError)") ∧
        ∃ pre inner post op cl, trimChars text.toList = pre ++ m ++ post ∧
          m = op :: (inner ++ [cl]) ∧
          ((op = '{' ∧ cl = '}') ∨ (op = '[' ∧ cl = ']')) ∧ cl ∉ post ∧
          (∀ p1 d p2, pre = p1 ++ d :: p2 →
            (d = '{' → '}' ∉ (p2 ++ m ++ post)) ∧
            (d = '[' → ']' ∉ (p2 ++ m ++ post)))) := by
  refine ⟨?_, ?_, ?_⟩
  · intro text v hj
    unfold safe_json_loads
    rw [hj]
  · intro text hj hr
    unfold safe_json_loads
    rw [hj, hr]
  · intro text m hj hr
    constructor
    · unfold safe_json_loads
      rw [hj, hr]
    · exact regexSearch_some _ m hr

theorem json_extraction_greedy_witness :
    safe_json_loads "reply: [1, 2]" = .ok (.arr [.num 1, .num 2]) ∧
    safe_json_loads "no structured data" =
      .error "Could not parse JSON from model output." := by
  refine ⟨?_, json_extraction_greedy.2.1 "no structured data" (by rfl) (by rfl)⟩
  have hm := json_extraction_greedy.2.2 "reply: [1, 2]" ("[1, 2]".toList) (by rfl) (by rfl)
  have h := hm.1
  rw [h]
  rfl

/-! ## Claim theorems: Tool Result invariant -/

theorem newsapi_search_inv (env : NewsEnv) (q : String) (n : Int) :
    (newsapi_search env q n).errIffFail := by
  unfold newsapi_search ToolResult.errIffFail
  cases env.newsapiResp with
  | error e => simp
  | ok r =>
      repeat' split
      all_goals simp

theorem gdelt_search_inv (env : NewsEnv) (q : String) (n : Int) :
    (gdelt_search env q n).errIffFail := by
  unfold gdelt_search ToolResult.errIffFail
  cases env.gdeltResp with
  | error e => simp
  | ok r =>
      repeat' split
      all_goals simp

theorem rss_search_inv (env : NewsEnv) (q : String) (n : Int) :
    (rss_search env q n).errIffFail := by
  unfold rss_search ToolResult.errIffFail
  cases env.rssResp with
  | error e => simp
  | ok r =>
      repeat' split
      all_goals simp

theorem newsWithKeyResult_inv (res gd rss : ToolResult) (h1 : res.errIffFail)
    (h2 : gd.errIffFail) (h3 : rss.errIffFail) :
    (newsWithKeyResult res gd rss).errIffFail := by
  unfold newsWithKeyResult
  split_ifs <;> simpa [ToolResult.errIffFail] using by assumption

theorem newsNoKeyResult_inv (gd rss : ToolResult) (h2 : gd.errIffFail)
    (h3 : rss.errIffFail) : (newsNoKeyResult gd rss).errIffFail := by
  unfold newsNoKeyResult
  split_ifs <;> simpa [ToolResult.errIffFail] using by assumption

theorem openweather_current_inv (env : WeatherEnv) (city : String) (r : ToolResult)
    (h : openweather_current env city = .ok r) : r.errIffFail := by
  unfold openweather_current at h
  split_ifs at h with h1
  · injection h with hr
    subst hr
    simp [ToolResult.errIffFail]
  · cases hg : ow_geocode env with
    | error e =>
        rw [hg] at h
        exact absurd h (by simp)
    | ok geo =>
        cases geo with
        | none =>
            rw [hg] at h
            injection h with hr
            subst hr
            simp [ToolResult.errIffFail]
        | some g =>
            rw [hg] at h
            cases hc : env.owCurResp with
            | error e =>
                rw [hc] at h
                exact absurd h (by simp)
            | ok resp =>
                rw [hc] at h
                replace h : (if ¬ resp.ok = true then
                    Except.ok { ok := false, tool_name := weatherName, error := some ("OpenWeather error " ++ toString resp.status ++ ": " ++ resp.text), meta := [("provider", JsonVal.str "openweather"), ("status_code", JsonVal.num resp.status)] }
                  else
                    match resp.json with
                    | none => Except.error "JSONDecodeError"
                    | some j =>
                        Except.ok { ok := true, tool_name := weatherName, data := owData g j city, meta := [("provider", JsonVal.str "openweather"), ("status_code", JsonVal.num resp.status)] }) = Except.ok r := h
                split_ifs at h with h2
                · cases hj : resp.json with
                  | none =>
                      rw [hj] at h
                      exact absurd h (by simp)
                  | some j =>
                      rw [hj] at h
                      injection h with hr
                      subst hr
                      simp [ToolResult.errIffFail]
                · injection h with hr
                  subst hr
                  simp [ToolResult.errIffFail]

theorem open_meteo_current_inv (env : WeatherEnv) (city : String) (r : ToolResult)
    (h : open_meteo_current env city = .ok r) : r.errIffFail := by
  unfold open_meteo_current at h
  cases hg : om_geocode env with
  | error e =>
      rw [hg] at h
      exact absurd h (by simp)
  | ok geo =>
      cases geo with
      | none =>
          rw [hg] at h
          injection h with hr
          subst hr
          simp [ToolResult.errIffFail]
      | some g =>
          rw [hg] at h
          cases hc : env.omCurResp with
          | error e =>
              rw [hc] at h
              exact absurd h (by simp)
          | ok resp =>
              rw [hc] at h
              replace h : (if ¬ resp.ok = true then
                  Except.ok { ok := false, tool_name := weatherName, error := some ("Open-Meteo error " ++ toString resp.status ++ ": " ++ resp.text), meta := [("provider", JsonVal.str "open-meteo"), ("status_code", JsonVal.num resp.status)] }
                else
                  match resp.json with
                  | none => Except.error "JSONDecodeError"
                  | some j =>
                      Except.ok { ok := true, tool_name := weatherName, data := omData g j city, meta := [("provider", JsonVal.str "open-meteo"), ("status_code", JsonVal.num resp.status)] }) = Except.ok r := h
              split_ifs at h with h2
              · cases hj : resp.json with
                | none =>
                    rw [hj] at h
                    exact absurd h (by simp)
                | some j =>
                    rw [hj] at h
                    injection h with hr
                    subst hr
                    simp [ToolResult.errIffFail]
              · injection h with hr
                subst hr
                simp [ToolResult.errIffFail]

theorem weatherFallback_inv (env : WeatherEnv) (city : String) (owe : Option String)
    (r : ToolResult) (h : weatherFallback env city owe = .ok r) : r.errIffFail := by
  unfold weatherFallback at h
  cases hm : open_meteo_current env city with
  | error e =>
      rw [hm] at h
      exact absurd h (by simp)
  | ok omRes =>
      rw [hm] at h
      have hom := open_meteo_current_inv env city omRes hm
      cases owe with
      | none =>
          replace h : (if omRes.ok = true then Except.ok omRes
            else Except.ok { ok := false, tool_name := weatherName, error := some ("Weather lookup failed. " ++ ("Open-Meteo: " ++ pyOrStr omRes.error "failed")), meta := [("provider", JsonVal.str "combined")] }) = Except.ok r := h
          split_ifs at h with h1
          · injection h with hr
            subst hr
            exact hom
          · injection h with hr
            subst hr
            simp [ToolResult.errIffFail]
      | some e =>
          replace h : (if omRes.ok = true then
              Except.ok { omRes with meta := setA (setA omRes.meta "fallback_from" (JsonVal.str "openweather")) "openweather_error" (JsonVal.str e) }
            else Except.ok { ok := false, tool_name := weatherName, error := some ("Weather lookup failed. " ++ ("OpenWeather: " ++ e ++ " | Open-Meteo: " ++ pyOrStr omRes.error "failed")), meta := [("provider", JsonVal.str "combined")] }) = Except.ok r := h
          split_ifs at h with h1
          · injection h with hr
            subst hr
            simpa [ToolResult.errIffFail] using hom
          · injection h with hr
            subst hr
            simp [ToolResult.errIffFail]

/-- C8: every Tool Result the system produces satisfies the §3
invariant `error is populated iff success is false`: the results
returned by the three registered tool capabilities (for every oracle
environment and argument mapping), and the Tool Result the Executor
synthesizes from an exception caught at a tool call. -/
theorem tool_result_error_iff_failure :
    (∀ (env : GithubEnv) (args : List (String × JsonVal)) (r : ToolResult),
        GitHubTool.call env args = .ok r → r.errIffFail)
    ∧ (∀ (env : WeatherEnv) (args : List (String × JsonVal)) (r : ToolResult),
        WeatherTool.call env args = .ok r → r.errIffFail)
    ∧ (∀ (env : NewsEnv) (args : List (String × JsonVal)) (r : ToolResult),
        NewsTool.call env args = .ok r → r.errIffFail)
    ∧ (∀ (env : ExecEnv) (name : String) (args : List (String × JsonVal)) (e : String),
        env.impl name args = .error e → (toolOutcome env name args).errIffFail) := by
  refine ⟨?_, ?_, ?_, ?_⟩
  · intro env args r h
    unfold GitHubTool.call at h
    cases hpi : pyInt ((getA args "top_n").getD (.num 5)) with
    | error e =>
        rw [hpi] at h
        exact absurd h (by simp)
    | ok n =>
        rw [hpi] at h
        replace h : (if (pyStrip (pyStr ((getA args "query").getD (JsonVal.str "")))).isEmpty = true then
            Except.ok { ok := false, tool_name := "github_repo_search", error := some "Missing 'query'" }
          else
            match env.searchResp with
            | Except.error e => Except.ok { ok := false, tool_name := "github_repo_search", error := some e }
            | Except.ok resp =>
                if ¬ resp.ok = true then
                  Except.ok { ok := false, tool_name := "github_repo_search", error := some ("GitHub error " ++ toString resp.status ++ ": " ++ resp.text), meta := [("status_code", JsonVal.num resp.status)] }
                else
                  match resp.json with
                  | none => Except.error "JSONDecodeError"
                  | some data => Except.ok { ok := true, tool_name := "github_repo_search", data := [("query", JsonVal.str (pyStrip (pyStr ((getA args "query").getD (JsonVal.str ""))))), ("items", JsonVal.arr (githubItems data (max 1 (min n 20))))], meta := [("total_count", objGetD data "total_count"), ("status_code", JsonVal.num resp.status)] }) = Except.ok r := h
        split_ifs at h with h1
        · injection h with hr
          subst hr
          simp [ToolResult.errIffFail]
        · cases hc : env.searchResp with
          | error e =>
              rw [hc] at h
              injection h with hr
              subst hr
              simp [ToolResult.errIffFail]
          | ok resp =>
              rw [hc] at h
              replace h : (if ¬ resp.ok = true then
                  Except.ok { ok := false, tool_name := "github_repo_search", error := some ("GitHub error " ++ toString resp.status ++ ": " ++ resp.text), meta := [("status_code", JsonVal.num resp.status)] }
                else
                  match resp.json with
                  | none => Except.error "JSONDecodeError"
                  | some data => Except.ok { ok := true, tool_name := "github_repo_search", data := [("query", JsonVal.str (pyStrip (pyStr ((getA args "query").getD (JsonVal.str ""))))), ("items", JsonVal.arr (githubItems data (max 1 (min n 20))))], meta := [("total_count", objGetD data "total_count"), ("status_code", JsonVal.num resp.status)] }) = Except.ok r := h
              split_ifs at h with h2
              · cases hj : resp.json with
                | none =>
                    rw [hj] at h
                    exact absurd h (by simp)
                | some data =>
                    rw [hj] at h
                    injection h with hr
                    subst hr
                    simp [ToolResult.errIffFail]
              · injection h with hr
                subst hr
                simp [ToolResult.errIffFail]
  · intro env args r h
    unfold WeatherTool.call at h
    split_ifs at h with h1 h2
    · injection h with hr
      subst hr
      simp [ToolResult.errIffFail]
    · exact weatherFallback_inv env _ none r h
    · cases how : openweather_current env (pyStrip (pyStr ((getA args "city").getD (JsonVal.str "")))) with
      | error e =>
          rw [how] at h
          exact absurd h (by simp)
      | ok owRes =>
          rw [how] at h
          replace h : (if owRes.ok = true then Except.ok owRes
            else weatherFallback env (pyStrip (pyStr ((getA args "city").getD (JsonVal.str "")))) (some (pyOrStr owRes.error "OpenWeather failed"))) = Except.ok r := h
          split_ifs at h with h3
          · injection h with hr
            subst hr
            exact openweather_current_inv env (pyStrip (pyStr ((getA args "city").getD (JsonVal.str "")))) owRes how
          · exact weatherFallback_inv env (pyStrip (pyStr ((getA args "city").getD (JsonVal.str "")))) _ r h
  · intro env args r h
    unfold NewsTool.call at h
    cases hpi : pyInt ((getA args "top_n").getD (.num 5)) with
    | error e =>
        rw [hpi] at h
        exact absurd h (by simp)
    | ok n =>
        rw [hpi] at h
        replace h : (if (pyStrip (pyStr ((getA args "query").getD (JsonVal.str "")))).isEmpty = true then
            Except.ok { ok := false, tool_name := newsName, error := some "Missing 'query'" }
          else if ¬ env.newsapi_key.isEmpty = true then
            Except.ok (newsWithKeyResult (newsapi_search env (pyStrip (pyStr ((getA args "query").getD (JsonVal.str "")))) (max 1 (min n 20))) (gdelt_search env (pyStrip (pyStr ((getA args "query").getD (JsonVal.str "")))) (max 1 (min n 20))) (rss_search env (pyStrip (pyStr ((getA args "query").getD (JsonVal.str "")))) (max 1 (min n 20))))
          else
            Except.ok (newsNoKeyResult (gdelt_search env (pyStrip (pyStr ((getA args "query").getD (JsonVal.str "")))) (max 1 (min n 20))) (rss_search env (pyStrip (pyStr ((getA args "query").getD (JsonVal.str "")))) (max 1 (min n 20))))) = Except.ok r := h
        split_ifs at h with h1 h2
        · injection h with hr
          subst hr
          simp [ToolResult.errIffFail]
        · injection h with hr
          subst hr
          exact newsNoKeyResult_inv _ _ (gdelt_search_inv env _ _) (rss_search_inv env _ _)
        · injection h with hr
          subst hr
          exact newsWithKeyResult_inv _ _ _ (newsapi_search_inv env _ _)
            (gdelt_search_inv env _ _) (rss_search_inv env _ _)
  · intro env name args e he
    unfold toolOutcome
    rw [he]
    simp [ToolResult.errIffFail]

def exampleGithubEnv : GithubEnv := { searchResp := .error "net down" }

theorem tool_result_error_iff_failure_witness :
    GitHubTool.call exampleGithubEnv [("query", JsonVal.str "lean")] =
      .ok { ok := false, tool_name := "github_repo_search", error := some "net down" } ∧
    ({ ok := false, tool_name := "github_repo_search", error := some "net down" } : ToolResult).errIffFail ∧
    (toolOutcome failingExecEnv "news_search" []).errIffFail := by
  have hcall : GitHubTool.call exampleGithubEnv [("query", JsonVal.str "lean")] =
      .ok { ok := false, tool_name := "github_repo_search", error := some "net down" } := by rfl
  exact ⟨hcall,
    tool_result_error_iff_failure.1 exampleGithubEnv [("query", JsonVal.str "lean")] _ hcall,
    tool_result_error_iff_failure.2.2.2 failingExecEnv "news_search" [] "boom news_search" rfl⟩

end AiOps
